import Mathlib

/-!
# Verification of the README-Generator VS Code extension core

This file is a shallow embedding, in Lean 4, of the core pure logic of the
README-Generator extension (language detection, project-type classification,
badge synthesis, template registry, prompt compilation, generation
orchestration, and the on-disk version history store), together with theorems
checking the documented behaviour of each component.

Modelling conventions, used throughout:

* JavaScript strings are Lean `String`s; character-level operations
  (`split`, `trim`, `startsWith`, `substring`, regular expressions) are
  implemented on `List Char` via `String.data`, mirroring the JS semantics.
* JavaScript objects used as string-keyed dictionaries are association lists
  `List (String × τ)` in key-insertion order (all keys involved are
  non-integral strings, for which JS preserves insertion order).
* A `dependencies` / `devDependencies` object is modelled by its list of keys
  (every version string of a present dependency is a non-empty, hence truthy,
  JS string).
* JS numbers are modelled as exact `Nat`/`ℚ` arithmetic:
  `Math.round((count / total) * 100)` becomes `(200 * count + total) / (2 * total)`
  (floor of `100*count/total + 1/2`; `Math.round` rounds halves up), and the
  hand-assigned confidence constants of the classifier are exact rationals.
* `Array.prototype.sort` is a stable sort; on a total preorder every stable
  sort agrees, so it is modelled by `List.insertionSort` (stable, structural).
* Filesystem state touched by the history manager is modelled as the list of
  files (name, content) of the single history directory, plus the live
  README.md; I/O primitives are reliable state transitions.
* The md5 content hash is an external crypto primitive; it enters the model
  as an explicit function parameter `hashFn : String → String` (the real one
  returns 8 lowercase-hex characters, captured by the `ValidHash` predicate).
-/

namespace ReadmeGen

/-! ## Character-level helpers for JS string semantics -/

/-- JS `a.startsWith(b)`. -/
def jsStartsWith (a b : String) : Bool :=
  b.data.isPrefixOf a.data

/-- Does `needle` occur as a contiguous sublist of the second list? -/
def listIsInfix (needle : List Char) : List Char → Bool
  | [] => needle.isEmpty
  | c :: cs => needle.isPrefixOf (c :: cs) || listIsInfix needle cs

/-- JS `a.includes(b)` (substring containment). -/
def jsIncludes (a b : String) : Bool :=
  listIsInfix b.data a.data

/-- JS `s.split(' ')[0]`: everything before the first space (the whole string
if it has no space). -/
def baseName (s : String) : String :=
  String.mk (s.data.takeWhile (· ≠ ' '))

/-- JS `s.substring(0, n)`. -/
def jsSubstring (s : String) (n : Nat) : String :=
  String.mk (s.data.take n)

/-- JS `s.trim()` (strip leading and trailing whitespace). -/
def jsTrim (s : String) : String :=
  String.mk (((s.data.dropWhile Char.isWhitespace).reverse.dropWhile Char.isWhitespace).reverse)

/-- JS `s.toLowerCase()` (ASCII letters only are relevant here). -/
def jsToLower (s : String) : String :=
  String.mk (s.data.map Char.toLower)

/-- JS `s.split('\n')` on the underlying character list. -/
def splitLines : List Char → List (List Char)
  | [] => [[]]
  | c :: cs =>
    if c = '\n' then [] :: splitLines cs
    else match splitLines cs with
      | [] => [[c]]
      | l :: ls => (c :: l) :: ls

/-- Lookup in a JS object modelled as an association list (own properties,
insertion order). -/
def jsLookup {τ : Type} (m : List (String × τ)) (k : String) : Option τ :=
  (m.find? (fun p => p.1 = k)).map (·.2)

/-- Replace every occurrence of the three-character pattern `p1 p2 p3` by the
single character `r` (JS `s.replace(/p1p2p3/g, r)` for the fixed patterns
`%20`, `%2B`, `%23` used by the badge generator). -/
def replace3 (p1 p2 p3 r : Char) : List Char → List Char
  | p :: q :: s :: rest =>
    if p = p1 ∧ q = p2 ∧ s = p3 then r :: replace3 p1 p2 p3 r rest
    else p :: replace3 p1 p2 p3 r (q :: s :: rest)
  | l => l

/-- In-place update of the first element satisfying `p` (JS
`list.find(p)` followed by mutation of the found element; no-op when nothing
matches). -/
def updateFirst {α : Type} (p : α → Bool) (f : α → α) : List α → List α
  | [] => []
  | x :: xs => if p x then f x :: xs else x :: updateFirst p f xs

/-- `Math.round((c / t) * 100)` for `0 ≤ c ≤ t`, `t > 0`, in exact arithmetic:
`⌊100*c/t + 1/2⌋` (JS `Math.round` rounds halves towards `+∞`). -/
def jsRound100 (c t : Nat) : Nat :=
  (200 * c + t) / (2 * t)

/-- `counts[key] = (counts[key] || 0) + 1` on an insertion-ordered histogram
(JS object with non-integral string keys). -/
def bump : List (String × Nat) → String → List (String × Nat)
  | [], k => [(k, 1)]
  | (k', c) :: rest, k =>
    if k' = k then (k', c + 1) :: rest else (k', c) :: bump rest k

end ReadmeGen

namespace ReadmeGen

/-! ## Data model produced by the workspace scanner (`workspaceScanner.ts`) -/

/-- `ProjectFile` of `workspaceScanner.ts`: one filesystem entry. -/
structure ProjectFile where
  path : String
  relativePath : String
  name : String
  extension : String
  isDirectory : Bool
deriving DecidableEq, Repr

/-- The fields of the parsed `package.json` manifest that the core reads.
Field presence/truthiness conventions:
`workspaces`, `bin`, `main`, `types`, `typings`, `exports` and `engines.node`
are used by the source only through truthiness / `!== undefined` tests, so
they are modelled as `Bool` flags; `isPrivate` models `private === true`;
`dependencies`/`devDependencies`/`scripts` are key-value objects in insertion
order (dependency keys are listed with their version strings elided: a present
dependency always has a truthy version string). -/
structure PackageJson where
  description : Option String := none
  dependencies : Option (List String) := none
  devDependencies : Option (List String) := none
  scripts : Option (List (String × String)) := none
  keywords : Option (List String) := none
  workspaces : Bool := false
  bin : Bool := false
  main : Bool := false
  types : Bool := false
  typings : Bool := false
  exports : Bool := false
  isPrivate : Bool := false
  license : Option String := none
  version : Option String := none
  enginesNode : Bool := false
deriving DecidableEq, Repr

/-- `ProjectInfo` of `workspaceScanner.ts`. -/
structure ProjectInfo where
  name : String
  rootPath : String
  files : List ProjectFile
  packageJson : Option PackageJson := none
  hasReadme : Bool := false
  existingReadmeContent : Option String := none
  configFiles : List String := []
  sourceFiles : List String := []
  totalFiles : Nat := 0
deriving DecidableEq, Repr

end ReadmeGen

namespace ReadmeGen
namespace LanguageDetector

/-! ## Language detection (`languageDetector.js` / `part_007`) -/

/-- `LANGUAGE_MAP`: extension → language name. -/
def LANGUAGE_MAP : List (String × String) := [
  (".js", "JavaScript"),
  (".jsx", "JavaScript (React)"),
  (".ts", "TypeScript"),
  (".tsx", "TypeScript (React)"),
  (".mjs", "JavaScript (ESM)"),
  (".cjs", "JavaScript (CommonJS)"),
  (".py", "Python"),
  (".pyw", "Python"),
  (".java", "Java"),
  (".kt", "Kotlin"),
  (".scala", "Scala"),
  (".go", "Go"),
  (".rs", "Rust"),
  (".rb", "Ruby"),
  (".php", "PHP"),
  (".cs", "C#"),
  (".fs", "F#"),
  (".cpp", "C++"),
  (".c", "C"),
  (".h", "C/C++ Header"),
  (".hpp", "C++ Header"),
  (".swift", "Swift"),
  (".dart", "Dart"),
  (".vue", "Vue.js"),
  (".svelte", "Svelte"),
  (".html", "HTML"),
  (".css", "CSS"),
  (".scss", "SCSS"),
  (".sass", "Sass"),
  (".less", "Less")]

/-- `LanguageStat` of the detector. -/
structure LanguageStat where
  name : String
  percentage : Nat
  fileCount : Nat
deriving DecidableEq, Repr

/-- One iteration of the counting loop of `detectLanguages`: recognized,
non-directory files are tallied by extension and counted in `totalFiles`. -/
def histStep (st : List (String × Nat) × Nat) (f : ProjectFile) : List (String × Nat) × Nat :=
  if ¬f.isDirectory ∧ (jsLookup LANGUAGE_MAP f.extension).isSome then
    (bump st.1 f.extension, st.2 + 1)
  else st

/-- The extension histogram of a project (insertion order), paired with the
count of recognized non-directory files. -/
def extensionCounts (info : ProjectInfo) : List (String × Nat) × Nat :=
  info.files.foldl histStep ([], 0)

/-- The raw (unsorted, unmerged) language statistics list of
`detectLanguages`. -/
def rawLanguages (hist : List (String × Nat)) (total : Nat) : List LanguageStat :=
  hist.map fun p => ⟨(jsLookup LANGUAGE_MAP p.1).getD "", jsRound100 p.2 total, p.2⟩

/-- `languages.sort((a, b) => b.fileCount - a.fileCount)`: stable sort by file
count descending. -/
def sortLangs (l : List LanguageStat) : List LanguageStat :=
  l.insertionSort (fun a b => b.fileCount ≤ a.fileCount)

/-- One iteration of the merge loop of `detectLanguages`: fold a language into
the already-seen entry of the same base name (text before the first space), or
push it as a new entry. -/
def mergeStep (st : List LanguageStat × List String) (lang : LanguageStat) :
    List LanguageStat × List String :=
  let b := baseName lang.name
  if st.2.contains b then
    (updateFirst (fun l => jsStartsWith l.name b)
      (fun l => { l with fileCount := l.fileCount + lang.fileCount,
                         percentage := l.percentage + lang.percentage }) st.1, st.2)
  else (st.1 ++ [lang], st.2 ++ [b])

/-- The merged language list (before the top-5 truncation). -/
def mergeLanguages (sorted : List LanguageStat) : List LanguageStat :=
  (sorted.foldl mergeStep ([], [])).1

/-- `detectLanguages` of `languageDetector.js`. -/
def detectLanguages (info : ProjectInfo) : List LanguageStat :=
  let (hist, total) := extensionCounts info
  if total = 0 then []
  else (mergeLanguages (sortLangs (rawLanguages hist total))).take 5

/-- The number of non-directory files with a recognized extension
("N" of the language-percentage property). -/
def recognizedTotal (info : ProjectInfo) : Nat :=
  (extensionCounts info).2

/-- Sum of the `fileCount` fields of a statistics list. -/
def sumCounts (l : List LanguageStat) : Nat :=
  (l.map (·.fileCount)).sum

end LanguageDetector
end ReadmeGen

namespace ReadmeGen

/-! ## Detection result bundle (`languageDetector.js`) -/

/-- `FrameworkMatch` of the detector. -/
structure FrameworkMatch where
  name : String
  category : String
  confidence : ℚ
deriving DecidableEq, Repr

/-- `DetectionResult`: the bundle produced by `detectAll`. -/
structure DetectionResult where
  languages : List LanguageDetector.LanguageStat := []
  frameworks : List FrameworkMatch := []
  packageManager : Option String := none
  buildTools : List String := []
  testFrameworks : List String := []
deriving DecidableEq, Repr

end ReadmeGen

namespace ReadmeGen
namespace ProjectTypeDetector

/-! ## Project type classification (`projectTypeDetector.js`) -/

/-- `ProjectTypeResult` of the classifier. -/
structure ProjectTypeResult where
  type : String
  displayName : String
  confidence : ℚ
  reason : String
deriving DecidableEq, Repr

def mobileFrameworks : List String := ["React Native", "Flutter", "Ionic", "Cordova"]

def desktopFrameworks : List String := ["Electron", "Tauri"]

def fullstackFrameworks : List String := ["Next.js", "Nuxt.js", "SvelteKit", "Remix"]

def frontendFrameworks : List String := ["React", "Vue.js", "Angular", "Svelte"]

def backendFrameworks : List String :=
  ["Express.js", "Fastify", "NestJS", "Django", "Flask", "FastAPI", "Spring Boot"]

/-- `pkg?.workspaces || files.some(f => f.name === 'lerna.json' || f.name === 'pnpm-workspace.yaml')`. -/
def hasWorkspaces (info : ProjectInfo) : Bool :=
  (match info.packageJson with | some p => p.workspaces | none => false) ||
    info.files.any (fun f => f.name = "lerna.json" || f.name = "pnpm-workspace.yaml")

/-- `frameworks.find(f => names.includes(f.name))?.name` interpolated into a
template literal (JS renders a missing match as `"undefined"`; every use is
guarded so the fallback is unreachable). -/
def findName (frameworks : List FrameworkMatch) (names : List String) : String :=
  ((frameworks.find? (fun f => names.contains f.name)).map (·.name)).getD "undefined"

/-- `pkg?.keywords?.some(k => k.toLowerCase().includes('cli') || k.toLowerCase().includes('command'))`
coerced to its truthiness. -/
def hasCliKeyword (info : ProjectInfo) : Bool :=
  match info.packageJson with
  | none => false
  | some p =>
    match p.keywords with
    | none => false
    | some ks => ks.any fun k =>
        jsIncludes (jsToLower k) "cli" || jsIncludes (jsToLower k) "command"

/-- `detectProjectType` of `projectTypeDetector.js`: an ordered decision list,
first matching rule wins.  (The source also computes an unused `hasSrcFolder`
flag, elided here.) -/
def detectProjectType (info : ProjectInfo) (detection : DetectionResult) : ProjectTypeResult :=
  let pkg := info.packageJson
  let frameworks := detection.frameworks
  let files := info.files
  if hasWorkspaces info then
    ⟨"monorepo", "Monorepo", 0.9, "Detected workspace configuration"⟩
  else if frameworks.any (fun f => mobileFrameworks.contains f.name) then
    ⟨"mobile", "Mobile App", 0.95, "Using " ++ findName frameworks mobileFrameworks⟩
  else if frameworks.any (fun f => desktopFrameworks.contains f.name) then
    ⟨"desktop", "Desktop App", 0.95, "Using " ++ findName frameworks desktopFrameworks⟩
  else
  let hasBinField := match pkg with | some p => p.bin | none => false
  if hasBinField || hasCliKeyword info then
    ⟨"cli", "CLI Tool", 0.85,
      if hasBinField then "Has bin field in package.json" else "CLI-related keywords"⟩
  else
  let hasMain := match pkg with | some p => p.main | none => false
  let hasTypes := match pkg with | some p => p.types || p.typings | none => false
  let hasExports := match pkg with | some p => p.exports | none => false
  let isPrivate := match pkg with | some p => p.isPrivate | none => false
  let libraryScore : Nat := (if hasMain then 1 else 0) + (if hasTypes then 1 else 0) +
    (if hasExports then 1 else 0) + (if !isPrivate then 1 else 0)
  if libraryScore ≥ 2 ∧ ¬isPrivate then
    ⟨"library", "Library/Package", 0.7 + (libraryScore : ℚ) * 0.05,
      "Has library configuration (main, types, exports)"⟩
  else if frameworks.any (fun f => fullstackFrameworks.contains f.name) then
    ⟨"fullstack", "Full-Stack App", 0.9, "Using " ++ findName frameworks fullstackFrameworks⟩
  else
  let hasFrontendFramework := frameworks.any (fun f => frontendFrameworks.contains f.name)
  let hasBackendFramework := frameworks.any (fun f => backendFrameworks.contains f.name)
  if hasFrontendFramework ∧ hasBackendFramework then
    ⟨"fullstack", "Full-Stack App", 0.85, "Has both frontend and backend frameworks"⟩
  else if hasFrontendFramework then
    ⟨"web-app", "Web Application", 0.85, "Using " ++ findName frameworks frontendFrameworks⟩
  else if hasBackendFramework then
    ⟨"backend", "Backend/API", 0.85, "Using " ++ findName frameworks backendFrameworks⟩
  else
  let hasPublicFolder := files.any (fun f => f.name = "public" && f.isDirectory)
  let hasIndexHtml := files.any (fun f => f.name = "index.html")
  if hasPublicFolder || hasIndexHtml then
    ⟨"web-app", "Web Application", 0.6, "Has public folder or index.html"⟩
  else
  let hasServerFile := files.any (fun f => f.name = "server.js" || f.name = "server.ts" ||
    f.name = "app.js" || f.name = "app.ts" || f.name = "index.js" ||
    f.name = "main.py" || f.name = "app.py")
  if hasServerFile && !hasPublicFolder && !hasIndexHtml then
    ⟨"backend", "Backend/API", 0.6, "Has server entry file"⟩
  else
    ⟨"unknown", "Project", 0.3, "Could not determine project type"⟩

/-- The closed set of archetypes the classifier can produce. -/
def archetypes : List String :=
  ["monorepo", "mobile", "desktop", "cli", "library", "fullstack", "web-app", "backend", "unknown"]

end ProjectTypeDetector
end ReadmeGen

namespace ReadmeGen
namespace Templates

/-! ## Template registry (`templates.ts`) -/

/-- `ReadmeSection` of `templates.ts`. -/
structure ReadmeSection where
  id : String
  name : String
  description : String
  defaultEnabled : Bool
deriving DecidableEq, Repr

/-- `ReadmeTemplate` of `templates.ts`.  The field `promptPreamble` is named
`promptPrefix` in the source. -/
structure ReadmeTemplate where
  id : String
  name : String
  description : String
  icon : String
  sections : List ReadmeSection
  promptPreamble : String
deriving DecidableEq, Repr

/-- `ALL_SECTIONS`: the canonical section catalog. -/
def ALL_SECTIONS : List ReadmeSection := [
  ⟨"title", "Title & Badges", "Project name, badges, and hero section", true⟩,
  ⟨"toc", "Table of Contents", "Clickable navigation links", true⟩,
  ⟨"description", "Description", "Project overview and purpose", true⟩,
  ⟨"demo", "Demo/Screenshots", "Demo GIF or screenshots section", true⟩,
  ⟨"features", "Features", "Key features and capabilities", true⟩,
  ⟨"techstack", "Tech Stack", "Technologies and tools used", true⟩,
  ⟨"structure", "Project Structure", "File tree and directory layout", true⟩,
  ⟨"prerequisites", "Prerequisites", "System requirements and dependencies", true⟩,
  ⟨"installation", "Installation", "How to install the project", true⟩,
  ⟨"envvars", "Environment Variables", "Environment configuration table", false⟩,
  ⟨"usage", "Usage", "How to use the project", true⟩,
  ⟨"configuration", "Configuration", "Configuration options", false⟩,
  ⟨"api", "API Reference", "API documentation", false⟩,
  ⟨"examples", "Examples", "Code examples", false⟩,
  ⟨"testing", "Testing", "How to run tests", false⟩,
  ⟨"deployment", "Deployment", "Deployment instructions", false⟩,
  ⟨"contributing", "Contributing", "Contribution guidelines", true⟩,
  ⟨"roadmap", "Roadmap", "Future plans", false⟩,
  ⟨"changelog", "Changelog", "Version history", false⟩,
  ⟨"license", "License", "License information", true⟩,
  ⟨"acknowledgements", "Acknowledgements", "Credits and thanks", false⟩,
  ⟨"contact", "Contact", "Contact information", false⟩]

/-- `ALL_SECTIONS.map(s => ({...s, defaultEnabled: ids.includes(s.id)}))`. -/
def sectionsWithDefaults (ids : List String) : List ReadmeSection :=
  ALL_SECTIONS.map fun s => { s with defaultEnabled := ids.contains s.id }

def openSourceTemplate : ReadmeTemplate where
  id := "openSource"
  name := "Open Source"
  description := "Ideal for open source projects with community focus"
  icon := "<svg width=\"24\" height=\"24\" viewBox=\"0 0 24 24\" fill=\"none\" xmlns=\"http://www.w3.org/2000/svg\"><circle cx=\"12\" cy=\"12\" r=\"10\" stroke=\"currentColor\" stroke-width=\"2\"/><path d=\"M2 12h20\" stroke=\"currentColor\" stroke-width=\"2\"/><path d=\"M12 2a15.3 15.3 0 0 1 4 10 15.3 15.3 0 0 1-4 10 15.3 15.3 0 0 1-4-10 15.3 15.3 0 0 1 4-10z\" stroke=\"currentColor\" stroke-width=\"2\"/></svg>"
  sections := sectionsWithDefaults
    ["title", "description", "features", "installation", "usage", "contributing", "license"]
  promptPreamble := "Generate a README for an OPEN SOURCE project. Focus on:\n- Community-friendly language\n- Clear contribution guidelines\n- Prominent badges (license, version, build status)\n- Easy-to-follow installation and usage\n- Welcoming tone to encourage contributions"

def libraryTemplate : ReadmeTemplate where
  id := "library"
  name := "Library/Package"
  description := "Best for npm packages, PyPI packages, or libraries"
  icon := "<svg width=\"24\" height=\"24\" viewBox=\"0 0 24 24\" fill=\"none\" xmlns=\"http://www.w3.org/2000/svg\"><path d=\"M21 16V8a2 2 0 0 0-1-1.73l-7-4a2 2 0 0 0-2 0l-7 4A2 2 0 0 0 3 8v8a2 2 0 0 0 1 1.73l7 4a2 2 0 0 0 2 0l7-4A2 2 0 0 0 21 16z\" stroke=\"currentColor\" stroke-width=\"2\" stroke-linecap=\"round\" stroke-linejoin=\"round\"/><polyline points=\"3.27 6.96 12 12.01 20.73 6.96\" stroke=\"currentColor\" stroke-width=\"2\" stroke-linecap=\"round\" stroke-linejoin=\"round\"/><line x1=\"12\" y1=\"22.08\" x2=\"12\" y2=\"12\" stroke=\"currentColor\" stroke-width=\"2\" stroke-linecap=\"round\" stroke-linejoin=\"round\"/></svg>"
  sections := sectionsWithDefaults
    ["title", "description", "features", "installation", "usage", "api", "examples", "license"]
  promptPreamble := "Generate a README for a LIBRARY/PACKAGE. Focus on:\n- Quick installation instructions (copy-paste ready)\n- API documentation with clear examples\n- TypeScript/type support information\n- Version compatibility notes\n- Minimal but comprehensive documentation"

def startupTemplate : ReadmeTemplate where
  id := "startup"
  name := "Startup/SaaS"
  description := "Perfect for startups and commercial products"
  icon := "<svg width=\"24\" height=\"24\" viewBox=\"0 0 24 24\" fill=\"none\" xmlns=\"http://www.w3.org/2000/svg\"><path d=\"M4.5 16.5c-1.5 1.26-2 5-2 5s3.74-.5 5-2c.48-.56.93-1.23 1.32-2h-4.32z\" fill=\"currentColor\"/><path d=\"M12 15l-3 3 5 5 3-3-5-5z\" fill=\"currentColor\"/><path d=\"M15 12l-5-5-1.5 3.5 3.5 1.5z\" stroke=\"currentColor\" stroke-width=\"2\" stroke-linecap=\"round\" stroke-linejoin=\"round\"/><path d=\"M12 15a8 8 0 1 1 0-14 8 8 0 0 1 0 14z\" stroke=\"currentColor\" stroke-width=\"2\" stroke-linecap=\"round\" stroke-linejoin=\"round\"/></svg>"
  sections := sectionsWithDefaults
    ["title", "description", "features", "demo", "installation", "usage", "deployment", "contact"]
  promptPreamble := "Generate a README for a STARTUP/SaaS product. Focus on:\n- Compelling product description\n- Key selling points and features\n- Professional branding tone\n- Easy getting started guide\n- Support and contact information"

def academicTemplate : ReadmeTemplate where
  id := "academic"
  name := "Academic/College"
  description := "Suited for research projects and academic work"
  icon := "<svg width=\"24\" height=\"24\" viewBox=\"0 0 24 24\" fill=\"none\" xmlns=\"http://www.w3.org/2000/svg\"><path d=\"M22 10v6M2 10l10-5 10 5-10 5z\" stroke=\"currentColor\" stroke-width=\"2\" stroke-linecap=\"round\" stroke-linejoin=\"round\"/><path d=\"M6 12v5c3 3 9 3 12 0v-5\" stroke=\"currentColor\" stroke-width=\"2\" stroke-linecap=\"round\" stroke-linejoin=\"round\"/></svg>"
  sections := sectionsWithDefaults
    ["title", "description", "features", "installation", "usage", "acknowledgements", "license"]
  promptPreamble := "Generate a README for an ACADEMIC/RESEARCH project. Focus on:\n- Clear problem statement and objectives\n- Methodology explanation\n- Results or expected outcomes\n- Academic references format\n- Proper attribution and acknowledgements"

def personalTemplate : ReadmeTemplate where
  id := "personal"
  name := "Personal Project"
  description := "Simple and clean for portfolio projects"
  icon := "<svg width=\"24\" height=\"24\" viewBox=\"0 0 24 24\" fill=\"none\" xmlns=\"http://www.w3.org/2000/svg\"><path d=\"M20 21v-2a4 4 0 0 0-4-4H8a4 4 0 0 0-4 4v2\" stroke=\"currentColor\" stroke-width=\"2\" stroke-linecap=\"round\" stroke-linejoin=\"round\"/><circle cx=\"12\" cy=\"7\" r=\"4\" stroke=\"currentColor\" stroke-width=\"2\" stroke-linecap=\"round\" stroke-linejoin=\"round\"/></svg>"
  sections := sectionsWithDefaults
    ["title", "description", "features", "installation", "usage", "license"]
  promptPreamble := "Generate a README for a PERSONAL/PORTFOLIO project. Focus on:\n- Showcase your skills and learning\n- Clean and simple format\n- Highlight interesting technical challenges\n- Visual appeal for portfolio\n- Friendly, personal tone"

/-- `TEMPLATES`: the static template catalog, keyed by id. -/
def TEMPLATES : List (String × ReadmeTemplate) := [
  ("openSource", openSourceTemplate),
  ("library", libraryTemplate),
  ("startup", startupTemplate),
  ("academic", academicTemplate),
  ("personal", personalTemplate)]

/-- `getTemplate`: `TEMPLATES[templateId] || openSourceTemplate` (a found
template object is always truthy). -/
def getTemplate (templateId : String) : ReadmeTemplate :=
  (jsLookup TEMPLATES templateId).getD openSourceTemplate

end Templates
end ReadmeGen

namespace ReadmeGen
namespace BadgeGenerator

/-! ## Badge synthesis (`badgeGenerator.js`) -/

/-- One entry of the `TECH_BADGES` database. -/
structure BadgeConfig where
  name : String
  color : String
  logo : String
  logoColor : String
deriving DecidableEq, Repr

def TECH_BADGES_1 : List (String × BadgeConfig) := [
  ("javascript", ⟨"JavaScript", "F7DF1E", "javascript", "black"⟩),
  ("typescript", ⟨"TypeScript", "3178C6", "typescript", "white"⟩),
  ("python", ⟨"Python", "3776AB", "python", "white"⟩),
  ("java", ⟨"Java", "ED8B00", "openjdk", "white"⟩),
  ("go", ⟨"Go", "00ADD8", "go", "white"⟩),
  ("rust", ⟨"Rust", "000000", "rust", "white"⟩),
  ("ruby", ⟨"Ruby", "CC342D", "ruby", "white"⟩),
  ("php", ⟨"PHP", "777BB4", "php", "white"⟩),
  ("csharp", ⟨"C%23", "239120", "csharp", "white"⟩),
  ("cpp", ⟨"C%2B%2B", "00599C", "cplusplus", "white"⟩),
  ("c", ⟨"C", "A8B9CC", "c", "black"⟩),
  ("swift", ⟨"Swift", "FA7343", "swift", "white"⟩),
  ("kotlin", ⟨"Kotlin", "7F52FF", "kotlin", "white"⟩),
  ("dart", ⟨"Dart", "0175C2", "dart", "white"⟩),
  ("html", ⟨"HTML5", "E34F26", "html5", "white"⟩),
  ("css", ⟨"CSS3", "1572B6", "css3", "white"⟩),
  ("sass", ⟨"Sass", "CC6699", "sass", "white"⟩),
  ("lua", ⟨"Lua", "2C2D72", "lua", "white"⟩),
  ("perl", ⟨"Perl", "39457E", "perl", "white"⟩),
  ("r", ⟨"R", "276DC3", "r", "white"⟩),
  ("scala", ⟨"Scala", "DC322F", "scala", "white"⟩),
  ("elixir", ⟨"Elixir", "4B275F", "elixir", "white"⟩),
  ("haskell", ⟨"Haskell", "5D4F85", "haskell", "white"⟩),
  ("clojure", ⟨"Clojure", "5881D8", "clojure", "white"⟩),
  ("react", ⟨"React", "61DAFB", "react", "black"⟩),
  ("vue", ⟨"Vue.js", "4FC08D", "vuedotjs", "white"⟩)]

def TECH_BADGES_2 : List (String × BadgeConfig) := [
  ("angular", ⟨"Angular", "DD0031", "angular", "white"⟩),
  ("svelte", ⟨"Svelte", "FF3E00", "svelte", "white"⟩),
  ("next", ⟨"Next.js", "000000", "nextdotjs", "white"⟩),
  ("nuxt", ⟨"Nuxt.js", "00DC82", "nuxtdotjs", "white"⟩),
  ("gatsby", ⟨"Gatsby", "663399", "gatsby", "white"⟩),
  ("astro", ⟨"Astro", "FF5D01", "astro", "white"⟩),
  ("solid", ⟨"Solid.js", "2C4F7C", "solid", "white"⟩),
  ("remix", ⟨"Remix", "000000", "remix", "white"⟩),
  ("preact", ⟨"Preact", "673AB8", "preact", "white"⟩),
  ("alpine", ⟨"Alpine.js", "8BC0D0", "alpinedotjs", "black"⟩),
  ("htmx", ⟨"HTMX", "3D72D7", "htmx", "white"⟩),
  ("node", ⟨"Node.js", "339933", "nodedotjs", "white"⟩),
  ("express", ⟨"Express", "000000", "express", "white"⟩),
  ("nestjs", ⟨"NestJS", "E0234E", "nestjs", "white"⟩),
  ("fastify", ⟨"Fastify", "000000", "fastify", "white"⟩),
  ("koa", ⟨"Koa", "33333D", "koa", "white"⟩),
  ("django", ⟨"Django", "092E20", "django", "white"⟩),
  ("flask", ⟨"Flask", "000000", "flask", "white"⟩),
  ("fastapi", ⟨"FastAPI", "009688", "fastapi", "white"⟩),
  ("spring", ⟨"Spring", "6DB33F", "spring", "white"⟩),
  ("rails", ⟨"Rails", "CC0000", "rubyonrails", "white"⟩),
  ("laravel", ⟨"Laravel", "FF2D20", "laravel", "white"⟩),
  ("gin", ⟨"Gin", "00ADD8", "gin", "white"⟩),
  ("fiber", ⟨"Fiber", "00ACD7", "go", "white"⟩),
  ("actix", ⟨"Actix", "000000", "rust", "white"⟩),
  ("deno", ⟨"Deno", "000000", "deno", "white"⟩)]

def TECH_BADGES_3 : List (String × BadgeConfig) := [
  ("bun", ⟨"Bun", "000000", "bun", "white"⟩),
  ("tailwind", ⟨"Tailwind", "06B6D4", "tailwindcss", "white"⟩),
  ("bootstrap", ⟨"Bootstrap", "7952B3", "bootstrap", "white"⟩),
  ("mui", ⟨"MUI", "007FFF", "mui", "white"⟩),
  ("chakra", ⟨"Chakra%20UI", "319795", "chakraui", "white"⟩),
  ("antdesign", ⟨"Ant%20Design", "0170FE", "antdesign", "white"⟩),
  ("shadcn", ⟨"shadcn/ui", "000000", "shadcnui", "white"⟩),
  ("radix", ⟨"Radix%20UI", "161618", "radixui", "white"⟩),
  ("bulma", ⟨"Bulma", "00D1B2", "bulma", "white"⟩),
  ("styled", ⟨"Styled%20Components", "DB7093", "styledcomponents", "white"⟩),
  ("mongodb", ⟨"MongoDB", "47A248", "mongodb", "white"⟩),
  ("postgresql", ⟨"PostgreSQL", "4169E1", "postgresql", "white"⟩),
  ("mysql", ⟨"MySQL", "4479A1", "mysql", "white"⟩),
  ("sqlite", ⟨"SQLite", "003B57", "sqlite", "white"⟩),
  ("redis", ⟨"Redis", "DC382D", "redis", "white"⟩),
  ("supabase", ⟨"Supabase", "3FCF8E", "supabase", "white"⟩),
  ("firebase", ⟨"Firebase", "FFCA28", "firebase", "black"⟩),
  ("prisma", ⟨"Prisma", "2D3748", "prisma", "white"⟩),
  ("dynamodb", ⟨"DynamoDB", "4053D6", "amazondynamodb", "white"⟩),
  ("elasticsearch", ⟨"Elasticsearch", "005571", "elasticsearch", "white"⟩),
  ("neo4j", ⟨"Neo4j", "4581C3", "neo4j", "white"⟩),
  ("cassandra", ⟨"Cassandra", "1287B1", "apachecassandra", "white"⟩),
  ("couchdb", ⟨"CouchDB", "E42528", "apachecouchdb", "white"⟩),
  ("mariadb", ⟨"MariaDB", "003545", "mariadb", "white"⟩),
  ("jest", ⟨"Jest", "C21325", "jest", "white"⟩),
  ("mocha", ⟨"Mocha", "8D6748", "mocha", "white"⟩)]

def TECH_BADGES_4 : List (String × BadgeConfig) := [
  ("cypress", ⟨"Cypress", "17202C", "cypress", "white"⟩),
  ("playwright", ⟨"Playwright", "2EAD33", "playwright", "white"⟩),
  ("vitest", ⟨"Vitest", "6E9F18", "vitest", "white"⟩),
  ("pytest", ⟨"Pytest", "0A9EDC", "pytest", "white"⟩),
  ("junit", ⟨"JUnit5", "25A162", "junit5", "white"⟩),
  ("webpack", ⟨"Webpack", "8DD6F9", "webpack", "black"⟩),
  ("vite", ⟨"Vite", "646CFF", "vite", "white"⟩),
  ("rollup", ⟨"Rollup", "EC4A3F", "rollupdotjs", "white"⟩),
  ("esbuild", ⟨"esbuild", "FFCF00", "esbuild", "black"⟩),
  ("turbopack", ⟨"Turbopack", "000000", "turbopack", "white"⟩),
  ("parcel", ⟨"Parcel", "21374B", "parcel", "white"⟩),
  ("gulp", ⟨"Gulp", "CF4647", "gulp", "white"⟩),
  ("grunt", ⟨"Grunt", "FAA918", "grunt", "white"⟩),
  ("docker", ⟨"Docker", "2496ED", "docker", "white"⟩),
  ("kubernetes", ⟨"Kubernetes", "326CE5", "kubernetes", "white"⟩),
  ("git", ⟨"Git", "F05032", "git", "white"⟩),
  ("github", ⟨"GitHub", "181717", "github", "white"⟩),
  ("gitlab", ⟨"GitLab", "FC6D26", "gitlab", "white"⟩),
  ("actions", ⟨"GitHub%20Actions", "2088FF", "githubactions", "white"⟩),
  ("jenkins", ⟨"Jenkins", "D24939", "jenkins", "white"⟩),
  ("circleci", ⟨"CircleCI", "343434", "circleci", "white"⟩),
  ("nginx", ⟨"Nginx", "009639", "nginx", "white"⟩),
  ("apache", ⟨"Apache", "D22128", "apache", "white"⟩),
  ("aws", ⟨"AWS", "232F3E", "amazonaws", "white"⟩),
  ("azure", ⟨"Azure", "0078D4", "microsoftazure", "white"⟩),
  ("gcp", ⟨"Google%20Cloud", "4285F4", "googlecloud", "white"⟩)]

def TECH_BADGES_5 : List (String × BadgeConfig) := [
  ("vercel", ⟨"Vercel", "000000", "vercel", "white"⟩),
  ("netlify", ⟨"Netlify", "00C7B7", "netlify", "white"⟩),
  ("heroku", ⟨"Heroku", "430098", "heroku", "white"⟩),
  ("digitalocean", ⟨"DigitalOcean", "0080FF", "digitalocean", "white"⟩),
  ("cloudflare", ⟨"Cloudflare", "F38020", "cloudflare", "white"⟩),
  ("railway", ⟨"Railway", "0B0D0E", "railway", "white"⟩),
  ("render", ⟨"Render", "46E3B7", "render", "black"⟩),
  ("eslint", ⟨"ESLint", "4B32C3", "eslint", "white"⟩),
  ("prettier", ⟨"Prettier", "F7B93E", "prettier", "black"⟩),
  ("biome", ⟨"Biome", "60A5FA", "biome", "white"⟩),
  ("reactnative", ⟨"React%20Native", "61DAFB", "react", "black"⟩),
  ("flutter", ⟨"Flutter", "02569B", "flutter", "white"⟩),
  ("expo", ⟨"Expo", "000020", "expo", "white"⟩),
  ("ionic", ⟨"Ionic", "3880FF", "ionic", "white"⟩),
  ("tensorflow", ⟨"TensorFlow", "FF6F00", "tensorflow", "white"⟩),
  ("pytorch", ⟨"PyTorch", "EE4C2C", "pytorch", "white"⟩),
  ("openai", ⟨"OpenAI", "412991", "openai", "white"⟩),
  ("langchain", ⟨"LangChain", "1C3C3C", "langchain", "white"⟩),
  ("npm", ⟨"npm", "CB3837", "npm", "white"⟩),
  ("yarn", ⟨"Yarn", "2C8EBB", "yarn", "white"⟩),
  ("pnpm", ⟨"pnpm", "F69220", "pnpm", "white"⟩),
  ("pip", ⟨"pip", "3776AB", "pypi", "white"⟩),
  ("cargo", ⟨"Cargo", "000000", "rust", "white"⟩)]

/-- `TECH_BADGES`: the comprehensive badge database, key → config, in source
order (split into chunks purely to keep elaboration fast). -/
def TECH_BADGES : List (String × BadgeConfig) :=
  TECH_BADGES_1 ++ TECH_BADGES_2 ++ TECH_BADGES_3 ++ TECH_BADGES_4 ++ TECH_BADGES_5

/-- `LANGUAGE_MAP` of the badge generator: detected language name → badge key. -/
def LANGUAGE_MAP : List (String × String) := [
  ("JavaScript", "javascript"), ("TypeScript", "typescript"), ("Python", "python"),
  ("Java", "java"), ("Go", "go"), ("Rust", "rust"), ("Ruby", "ruby"), ("PHP", "php"),
  ("C#", "csharp"), ("C++", "cpp"), ("C", "c"), ("Swift", "swift"), ("Kotlin", "kotlin"),
  ("Dart", "dart"), ("HTML", "html"), ("CSS", "css"), ("Sass", "sass"), ("SCSS", "sass"),
  ("Lua", "lua"), ("Perl", "perl"), ("R", "r"), ("Scala", "scala"), ("Elixir", "elixir"),
  ("Haskell", "haskell"), ("Clojure", "clojure")]

/-- `FRAMEWORK_MAP`: detected framework name → badge key. -/
def FRAMEWORK_MAP : List (String × String) := [
  ("React", "react"), ("Vue.js", "vue"), ("Vue", "vue"), ("Angular", "angular"),
  ("Svelte", "svelte"), ("Next.js", "next"), ("Nuxt.js", "nuxt"), ("Gatsby", "gatsby"),
  ("Astro", "astro"), ("Remix", "remix"), ("Express", "express"), ("NestJS", "nestjs"),
  ("Fastify", "fastify"), ("Koa", "koa"), ("Django", "django"), ("Flask", "flask"),
  ("FastAPI", "fastapi"), ("Spring Boot", "spring"), ("Ruby on Rails", "rails"),
  ("Laravel", "laravel"), ("Gin", "gin"), ("TailwindCSS", "tailwind"),
  ("Tailwind CSS", "tailwind"), ("Bootstrap", "bootstrap"), ("Material-UI", "mui"),
  ("MUI", "mui"), ("Chakra UI", "chakra"), ("Ant Design", "antdesign"),
  ("Flutter", "flutter"), ("React Native", "reactnative"), ("Expo", "expo"),
  ("Ionic", "ionic")]

/-- `DEPENDENCY_MAP`: `package.json` dependency name → badge key. -/
def DEPENDENCY_MAP : List (String × String) := [
  ("react", "react"), ("react-dom", "react"), ("vue", "vue"), ("@angular/core", "angular"),
  ("svelte", "svelte"), ("next", "next"), ("nuxt", "nuxt"), ("gatsby", "gatsby"),
  ("astro", "astro"), ("@remix-run/react", "remix"), ("solid-js", "solid"),
  ("preact", "preact"), ("alpinejs", "alpine"), ("htmx.org", "htmx"),
  ("express", "express"), ("@nestjs/core", "nestjs"), ("fastify", "fastify"),
  ("koa", "koa"), ("tailwindcss", "tailwind"), ("bootstrap", "bootstrap"),
  ("@mui/material", "mui"), ("@chakra-ui/react", "chakra"), ("antd", "antdesign"),
  ("@radix-ui/react-dialog", "radix"), ("styled-components", "styled"), ("bulma", "bulma"),
  ("mongoose", "mongodb"), ("mongodb", "mongodb"), ("pg", "postgresql"),
  ("mysql2", "mysql"), ("better-sqlite3", "sqlite"), ("sqlite3", "sqlite"),
  ("redis", "redis"), ("ioredis", "redis"), ("@supabase/supabase-js", "supabase"),
  ("firebase", "firebase"), ("@prisma/client", "prisma"), ("prisma", "prisma"),
  ("jest", "jest"), ("mocha", "mocha"), ("cypress", "cypress"),
  ("@playwright/test", "playwright"), ("vitest", "vitest"),
  ("webpack", "webpack"), ("vite", "vite"), ("rollup", "rollup"),
  ("esbuild", "esbuild"), ("parcel", "parcel"),
  ("eslint", "eslint"), ("prettier", "prettier"), ("@biomejs/biome", "biome"),
  ("react-native", "reactnative"), ("expo", "expo"), ("@ionic/react", "ionic"),
  ("openai", "openai"), ("langchain", "langchain"), ("@tensorflow/tfjs", "tensorflow")]

/-- `BUILD_TOOL_MAP`: build tool (lower-cased) → badge key. -/
def BUILD_TOOL_MAP : List (String × String) := [
  ("webpack", "webpack"), ("vite", "vite"), ("rollup", "rollup"),
  ("esbuild", "esbuild"), ("parcel", "parcel"), ("gulp", "gulp"), ("grunt", "grunt")]

/-- `PACKAGE_MANAGER_MAP`: package manager (lower-cased) → badge key. -/
def PACKAGE_MANAGER_MAP : List (String × String) := [
  ("npm", "npm"), ("yarn", "yarn"), ("pnpm", "pnpm"), ("pip", "pip"), ("cargo", "cargo")]

/-- One synthesized badge: display label, shield markdown, category. -/
structure Badge where
  label : String
  markdown : String
  category : String
deriving DecidableEq, Repr

/-- `getCategoryForKey`. -/
def getCategoryForKey (key : String) : String :=
  if ["javascript", "typescript", "python", "java", "go", "rust", "ruby", "php", "csharp",
      "cpp", "c", "swift", "kotlin", "dart", "html", "css", "sass", "lua", "perl", "r",
      "scala", "elixir", "haskell", "clojure"].contains key then "language"
  else if ["mongodb", "postgresql", "mysql", "sqlite", "redis", "supabase", "firebase",
      "prisma", "dynamodb", "elasticsearch", "neo4j", "cassandra", "couchdb",
      "mariadb"].contains key then "database"
  else if ["aws", "azure", "gcp", "vercel", "netlify", "heroku", "digitalocean",
      "cloudflare", "railway", "render"].contains key then "cloud"
  else if ["docker", "kubernetes", "git", "github", "gitlab", "actions", "jenkins",
      "circleci", "nginx", "apache", "webpack", "vite", "rollup", "esbuild", "parcel",
      "gulp", "grunt", "eslint", "prettier", "biome", "npm", "yarn", "pnpm", "pip",
      "cargo"].contains key then "tool"
  else "framework"

/-- `config.name.replace(/%20/g, ' ')`. -/
def decodeSpaces (s : String) : String :=
  String.mk (replace3 '%' '2' '0' ' ' s.data)

/-- The label decoding of `createBadge`:
`.replace(/%20/g, ' ').replace(/%2B/g, '+').replace(/%23/g, '#')`. -/
def decodeLabel (s : String) : String :=
  String.mk (replace3 '%' '2' '3' '#' (replace3 '%' '2' 'B' '+' (replace3 '%' '2' '0' ' ' s.data)))

/-- `createBadge(key, style)`: `null` when the key is not in the database. -/
def createBadge (key : String) (style : String) : Option Badge :=
  (jsLookup TECH_BADGES key).map fun config =>
    let logoColor := if config.logoColor = "" then "white" else config.logoColor
    { label := decodeLabel config.name,
      markdown := "![" ++ decodeSpaces config.name ++ "](https://img.shields.io/badge/" ++
        config.name ++ "-" ++ config.color ++ "?style=" ++ style ++ "&logo=" ++
        config.logo ++ "&logoColor=" ++ logoColor ++ ")",
      category := getCategoryForKey key }

/-- `addBadge(key)`: append the badge for `key` unless the key was already
added (the `addedKeys` set is the second component, in insertion order). -/
def addBadge (style : String) (st : List Badge × List String) (key : String) :
    List Badge × List String :=
  if st.2.contains key then st
  else match createBadge key style with
    | some badge => (st.1 ++ [badge], st.2 ++ [key])
    | none => st

/-- `{...pkg?.dependencies, ...pkg?.devDependencies}` → `Object.keys`:
dependency keys first, then the dev-dependency keys not shadowing them. -/
def mergedDepKeys (info : ProjectInfo) : List String :=
  let d := (info.packageJson.bind (·.dependencies)).getD []
  let dd := (info.packageJson.bind (·.devDependencies)).getD []
  d ++ dd.filter (fun k => ¬d.contains k)

/-- The sequence of badge keys attempted by steps 1–8 of `generateAllBadges`,
in evaluation order (a lookup miss attempts nothing: `if (key) addBadge(key)`). -/
def badgeKeyCandidates (info : ProjectInfo) (detection : DetectionResult) : List String :=
  (detection.languages.filterMap fun lang =>
      match jsLookup LANGUAGE_MAP lang.name with
      | some k => some k
      | none => jsLookup LANGUAGE_MAP (baseName lang.name)) ++
  (detection.frameworks.filterMap fun fw => jsLookup FRAMEWORK_MAP fw.name) ++
  ((mergedDepKeys info).filterMap fun dep => jsLookup DEPENDENCY_MAP dep) ++
  (detection.buildTools.filterMap fun tool => jsLookup BUILD_TOOL_MAP (jsToLower tool)) ++
  (match detection.packageManager with
   | some pm => (jsLookup PACKAGE_MANAGER_MAP (jsToLower pm)).toList
   | none => []) ++
  (if (info.packageJson.map (·.enginesNode)).getD false then ["node"] else []) ++
  (if info.files.any (fun f => jsIncludes (jsToLower f.path) "dockerfile")
   then ["docker"] else []) ++
  (if info.files.any (fun f => jsIncludes f.path ".github/workflows")
   then ["actions"] else [])

/-- `encodeURIComponent` hex digit (upper case). -/
def hexDigitUpper (n : Nat) : Char :=
  (("0123456789ABCDEF".data).getD n '0')

/-- UTF-8 bytes of a code point. -/
def utf8Bytes (n : Nat) : List Nat :=
  if n < 0x80 then [n]
  else if n < 0x800 then [0xC0 + n / 0x40, 0x80 + n % 0x40]
  else if n < 0x10000 then [0xE0 + n / 0x1000, 0x80 + (n / 0x40) % 0x40, 0x80 + n % 0x40]
  else [0xF0 + n / 0x40000, 0x80 + (n / 0x1000) % 0x40, 0x80 + (n / 0x40) % 0x40, 0x80 + n % 0x40]

/-- Characters `encodeURIComponent` leaves unescaped. -/
def isUnreservedChar (c : Char) : Bool :=
  c.isAlphanum || ["-", "_", ".", "!", "~", "*", "\x27", "(", ")"].contains (String.mk [c])

/-- The JS builtin `encodeURIComponent` (external runtime primitive, modelled
by its specification: unreserved characters kept, everything else
percent-encoded byte-wise in UTF-8). -/
def encodeURIComponent (s : String) : String :=
  String.mk (s.data.flatMap fun c =>
    if isUnreservedChar c then [c]
    else (utf8Bytes c.toNat).flatMap fun b => ['%', hexDigitUpper (b / 16), hexDigitUpper (b % 16)])

/-- `generateLicenseBadge` (a falsy — absent or empty — license yields
`null`). -/
def generateLicenseBadge (info : ProjectInfo) : Option Badge :=
  match info.packageJson.bind (·.license) with
  | none => none
  | some license =>
    if license = "" then none
    else some
      { label := "License",
        markdown := "![License](https://img.shields.io/badge/License-" ++
          encodeURIComponent license ++ "-blue?style=flat-square)",
        category := "meta" }

/-- `generateVersionBadge`. -/
def generateVersionBadge (info : ProjectInfo) : Option Badge :=
  match info.packageJson.bind (·.version) with
  | none => none
  | some version =>
    if version = "" then none
    else some
      { label := "Version",
        markdown := "![Version](https://img.shields.io/badge/Version-" ++ version ++
          "-green?style=flat-square)",
        category := "meta" }

/-- `generatePRsWelcomeBadge`. -/
def generatePRsWelcomeBadge : Badge :=
  { label := "PRs Welcome",
    markdown := "![PRs Welcome](https://img.shields.io/badge/PRs-Welcome-brightgreen?style=flat-square)",
    category := "meta" }

/-- `generateAllBadges(projectInfo, detection, style)`. -/
def generateAllBadges (info : ProjectInfo) (detection : DetectionResult)
    (style : String := "flat-square") : List Badge :=
  let st := (badgeKeyCandidates info detection).foldl (addBadge style) ([], [])
  st.1 ++ (generateLicenseBadge info).toList ++ (generateVersionBadge info).toList ++
    [generatePRsWelcomeBadge]

/-- `getBadgesMarkdown`. -/
def getBadgesMarkdown (info : ProjectInfo) (detection : DetectionResult)
    (style : String := "flat-square") : String :=
  String.intercalate " " ((generateAllBadges info detection style).map (·.markdown))

end BadgeGenerator
end ReadmeGen

namespace ReadmeGen
namespace OfflineFallback

/-! ## Offline README generation (`offlineFallback.js`) -/

/-- JS `\s+` → `'-'` global replacement (each maximal whitespace run becomes a
single dash). -/
def replaceWsDash : List Char → List Char
  | [] => []
  | c :: cs =>
    if c.isWhitespace then '-' :: replaceWsDash (cs.dropWhile Char.isWhitespace)
    else c :: replaceWsDash cs
termination_by l => l.length
decreasing_by
  · simpa [Nat.lt_succ_iff] using (List.dropWhile_sublist (l := cs) Char.isWhitespace).length_le
  · simp

/-- `s.charAt(0).toUpperCase() + s.slice(1)`. -/
def capitalize (s : String) : String :=
  match s.data with
  | [] => ""
  | c :: cs => String.mk (c.toUpper :: cs)

/-- Truthiness of `pkg?.scripts?.<key>` (an absent object, absent key, or
empty-string command is falsy). -/
def hasTruthyScript (info : ProjectInfo) (key : String) : Bool :=
  match info.packageJson with
  | none => false
  | some p =>
    match p.scripts with
    | none => false
    | some scripts => ((jsLookup scripts key).getD "") ≠ ""

/-- `generateOfflineReadme` of `offlineFallback.js`. -/
def generateOfflineReadme (info : ProjectInfo) (detection : DetectionResult)
    (projectType : ProjectTypeDetector.ProjectTypeResult) : String :=
  let projectName := if info.name = "" then "Project" else info.name
  let badges := BadgeGenerator.getBadgesMarkdown info detection
  let description :=
    match info.packageJson.bind (·.description) with
    | some d => if d = "" then "A software project" else d
    | none => "A software project"
  let languages :=
    let s := String.intercalate ", " (detection.languages.map (·.name))
    if s = "" then "Not detected" else s
  let frameworks :=
    let s := String.intercalate ", " (detection.frameworks.map (·.name))
    if s = "" then "None" else s
  let packageManager :=
    match detection.packageManager with
    | some pm => if pm = "" then "npm" else pm
    | none => "npm"
  let installCmd :=
    if packageManager = "npm" then "npm install"
    else if packageManager = "yarn" then "yarn"
    else if packageManager = "pnpm" then "pnpm install"
    else if packageManager = "pip" then "pip install -r requirements.txt"
    else if packageManager = "cargo" then "cargo build"
    else if packageManager = "go mod" then "go mod download"
    else "npm install"
  let runCmd :=
    if packageManager = "npm" then
      if hasTruthyScript info "dev" then "npm run dev"
      else if hasTruthyScript info "start" then "npm start" else "npm run start"
    else if packageManager = "yarn" then
      if hasTruthyScript info "dev" then "yarn dev"
      else if hasTruthyScript info "start" then "yarn start" else "yarn start"
    else if packageManager = "pnpm" then
      if hasTruthyScript info "dev" then "pnpm dev"
      else if hasTruthyScript info "start" then "pnpm start" else "pnpm start"
    else if packageManager = "pip" then "python main.py"
    else if packageManager = "cargo" then "cargo run"
    else if packageManager = "go mod" then "go run ."
    else "npm start"
  let slug := String.mk (replaceWsDash (jsToLower projectName).data)
  "# " ++
  projectName ++
  "\n\n" ++
  badges ++
  "\n\n" ++
  description ++
  "\n\n## 📋 Table of Contents\n\n- [About](#about)\n- [Features](#features)\n- [Tech Stack](#tech-stack)\n- [Getting Started](#getting-started)\n- [Usage](#usage)\n- [Contributing](#contributing)\n- [License](#license)\n\n## 📖 About\n\n" ++
  description ++
  "\n\n**Project Type:** " ++
  projectType.displayName ++
  "\n\n## ✨ Features\n\n<!-- Add your features here -->\n- Feature 1\n- Feature 2\n- Feature 3\n\n## 🛠️ Tech Stack\n\n- **Languages:** " ++
  languages ++
  "\n- **Frameworks:** " ++
  frameworks ++
  "\n- **Package Manager:** " ++
  packageManager ++
  "\n\n## 🚀 Getting Started\n\n### Prerequisites\n\nMake sure you have the following installed:\n- " ++
  (if packageManager = "pip" then "Python 3.x" else "Node.js (v16 or higher)") ++
  "\n- " ++
  capitalize packageManager ++
  "\n\n### Installation\n\n1. Clone the repository:\n```bash\ngit clone https://github.com/username/" ++
  slug ++
  ".git\ncd " ++
  slug ++
  "\n```\n\n2. Install dependencies:\n```bash\n" ++
  installCmd ++
  "\n```\n\n## 💻 Usage\n\nRun the project:\n\n```bash\n" ++
  runCmd ++
  "\n```\n\n## 🤝 Contributing\n\nContributions are welcome! Please feel free to submit a Pull Request.\n\n1. Fork the repository\n2. Create your feature branch (`git checkout -b feature/AmazingFeature`)\n3. Commit your changes (`git commit -m 'Add some AmazingFeature'`)\n4. Push to the branch (`git push origin feature/AmazingFeature`)\n5. Open a Pull Request\n\n## 📄 License\n\n" ++
  (match info.packageJson.bind (·.license) with
   | some license =>
     if license = "" then "This project is licensed under the MIT License."
     else "This project is licensed under the " ++ license ++ " License."
   | none => "This project is licensed under the MIT License.") ++
  "\n\n---\n\n⚠️ *This README was generated offline using a basic template. For a better README, please configure your OpenRouter API key and regenerate.*\n"

end OfflineFallback
end ReadmeGen

namespace ReadmeGen
namespace Scanner

/-! ## Project summary text (`workspaceScanner.ts`, `getProjectSummary`) -/

/-- `getProjectSummary` of `workspaceScanner.ts` (`path.sep` is `/`: the
extension host runs the scan with POSIX-style relative paths). -/
def getProjectSummary (info : ProjectInfo) : String :=
  let base := ["Project Name: " ++ info.name, "Total Files: " ++ toString info.totalFiles]
  let s1 :=
    if info.configFiles.length > 0 then
      ["\nConfig Files:\n" ++ String.intercalate "\n" (info.configFiles.map (fun f => "  - " ++ f))]
    else []
  let extCounts := info.files.foldl
    (fun acc f => if ¬f.isDirectory ∧ f.extension ≠ "" then bump acc f.extension else acc) []
  let sortedExtensions := (extCounts.insertionSort (fun a b => b.2 ≤ a.2)).take 10
  let s2 :=
    if sortedExtensions.length > 0 then
      ["\nFile Types:\n" ++ String.intercalate "\n"
        (sortedExtensions.map (fun p => "  - " ++ p.1 ++ ": " ++ toString p.2 ++ " files"))]
    else []
  let s3 :=
    match info.packageJson with
    | none => []
    | some pkg =>
      (match pkg.description with
       | some d => if d ≠ "" then ["\nDescription: " ++ d] else []
       | none => []) ++
      (match pkg.dependencies with
       | some deps =>
         ["\nDependencies:\n" ++ String.intercalate "\n" ((deps.take 15).map (fun d => "  - " ++ d))] ++
         (if deps.length > 15 then ["  ... and " ++ toString (deps.length - 15) ++ " more"] else [])
       | none => []) ++
      (match pkg.devDependencies with
       | some dd =>
         ["\nDev Dependencies:\n" ++ String.intercalate "\n" ((dd.take 10).map (fun d => "  - " ++ d))]
       | none => []) ++
      (match pkg.scripts with
       | some scripts =>
         ["\nScripts:\n" ++ String.intercalate "\n"
           ((scripts.take 10).map (fun p => "  - " ++ p.1 ++ ": " ++ p.2))]
       | none => [])
  let topLevelDirs :=
    ((info.files.filter (fun f => f.isDirectory ∧ ¬jsIncludes f.relativePath "/")).map (·.name)).take 15
  let s4 :=
    if topLevelDirs.length > 0 then
      ["\nTop-Level Directories:\n" ++ String.intercalate "\n"
        (topLevelDirs.map (fun d => "  - " ++ d ++ "/"))]
    else []
  String.intercalate "\n" (base ++ s1 ++ s2 ++ s3 ++ s4)

end Scanner
end ReadmeGen

namespace ReadmeGen
namespace PromptBuilder

open Templates

/-! ## Prompt compilation (`promptBuilder.ts`) -/

/-- The 79-character `═` banner rule used throughout the prompt templates
(written via `List.replicate` purely to keep the source text compact). -/
def hrule : String := String.mk (List.replicate 79 '═')

/-- `PromptOptions` of `promptBuilder.ts`. -/
structure PromptOptions where
  template : ReadmeTemplate
  enabledSections : List String
  language : String
  tone : String
  customInstructions : Option String := none
  includeBadges : Bool
  customBadges : Option String := none
deriving DecidableEq, Repr

/-- `GeneratedPrompt` of `promptBuilder.ts`. -/
structure GeneratedPrompt where
  systemPrompt : String
  userPrompt : String
  badges : Option String := none
deriving DecidableEq, Repr

/-- `getLanguageInstruction` (unrecognized values fall back to English). -/
def getLanguageInstruction (language : String) : String :=
  let instructions : List (String × String) := [
    ("english", "Write in fluent, professional English."),
    ("simpleEnglish", "Write in simple, easy-to-understand English. Avoid jargon and complex technical terms."),
    ("spanish", "Write in Spanish (Español). Use proper grammar and professional vocabulary."),
    ("french", "Write in French (Français). Use proper grammar and professional vocabulary."),
    ("german", "Write in German (Deutsch). Use proper grammar and professional vocabulary."),
    ("chinese", "Write in Simplified Chinese (简体中文). Use proper grammar and professional vocabulary."),
    ("japanese", "Write in Japanese (日本語). Use proper grammar and professional vocabulary."),
    ("hindi", "Write in Hindi (हिन्दी). Use proper grammar and professional vocabulary.")]
  (jsLookup instructions language).getD "Write in fluent, professional English."

/-- `getToneInstruction` (unrecognized values fall back to professional). -/
def getToneInstruction (tone : String) : String :=
  let instructions : List (String × String) := [
    ("professional", "Use a professional, authoritative tone. Be clear, concise, and direct."),
    ("friendly", "Use a friendly, welcoming tone. Be approachable, encouraging, and enthusiastic."),
    ("minimal", "Use a minimal, concise tone. Focus only on essential information. No fluff."),
    ("technical", "Use a technical, detailed tone. Include specifications, configurations, and in-depth explanations.")]
  (jsLookup instructions tone).getD "Use a professional, authoritative tone. Be clear, concise, and direct."

/-- `buildSystemPrompt` of `promptBuilder.ts` (verbatim style rules; the
field `promptPreamble` is `promptPrefix` in the source). -/
def buildSystemPrompt (options : PromptOptions) : String :=
  "You are an expert technical writer specializing in creating beautiful, professional README.md files that look stunning on GitHub.\n\n" ++
  (options.template.promptPreamble) ++
  "\n\n" ++
  (getLanguageInstruction options.language) ++
  "\n" ++
  (getToneInstruction options.tone) ++
  "\n\n" ++ hrule ++ "\n🎨 MANDATORY STYLE RULES (FOLLOW EXACTLY)\n" ++ hrule ++ "\n\n## 1. TITLE SECTION FORMAT (USE ACTUAL PROJECT NAME!)\n⚠️ The project name is provided in the project analysis. Use IT, not a placeholder!\n\n```markdown\n# [emoji] [ACTUAL PROJECT NAME FROM ANALYSIS] - Short Catchy Tagline\n\n![Tech1](https://img.shields.io/badge/Tech1-color?style=flat-square&logo=tech1)\n![Tech2](https://img.shields.io/badge/Tech2-color?style=flat-square&logo=tech2)\n\n> A brief, compelling description of what this project does and why it matters.\n```\n\nEXAMPLE: If project is named \"watchtogether\", the heading should be:\n```markdown\n# 🎬 WatchTogether - Watch Videos Together in Real-Time\n```\n\nCRITICAL: \n- Read the project name from \"Project: [name]\" in the analysis\n- Capitalize it properly (WatchTogether, not watchtogether)\n- Add a relevant emoji at the start\n- Add a catchy tagline that describes what it does\n\n## 2. BADGE COLORS (Use these EXACT hex codes)\n| Technology | Color | Logo |\n|------------|-------|------|\n| React | `#61DAFB` | react |\n| Vue | `#4FC08D` | vuedotjs |\n| Angular | `#DD0031` | angular |\n| Next.js | `#000000` | nextdotjs |\n| Node.js | `#339933` | nodedotjs |\n| TypeScript | `#3178C6` | typescript |\n| JavaScript | `#F7DF1E` | javascript |\n| Python | `#3776AB` | python |\n| Go | `#00ADD8` | go |\n| Rust | `#000000` | rust |\n| MongoDB | `#47A248` | mongodb |\n| PostgreSQL | `#4169E1` | postgresql |\n| Docker | `#2496ED` | docker |\n| Tailwind | `#06B6D4` | tailwindcss |\n\n## 3. FEATURE LIST FORMAT (EXACT PATTERN)\nEach feature MUST follow this format:\n```\n- [emoji] **Feature Name** - Brief description of what it does\n```\n\nExample patterns (adapt to the actual project):\n```markdown\n## ✨ Features\n\n- � **[Main Feature]** - Description based on actual project functionality\n- ⚡ **[Performance Feature]** - How the project optimizes something\n- 🔒 **[Security Feature]** - Security aspects if applicable\n- 🎨 **[UI/UX Feature]** - User interface highlights\n- 🛠️ **[Developer Feature]** - Developer experience improvements\n```\n\nIMPORTANT: Analyze the actual project files to write REAL features, not placeholders!\n\n## 4. EMOJI RULES\nUse VARIED, COLORFUL emojis - different for each item:\n🎬 🎯 🖥️ 🎤 💬 🎨 ⚡ 🛠️ 🔒 📱 🌐 🚀 ✨ 💡 🔥 📊 🎮 🔧 📦 🎪 🌟 💎 🏆 🎉 💪 🌈 ⭐ 🔑 📈 🎭\n\n## 5. SECTION HEADERS (With emojis)\n```markdown\n## ✨ Features\n## 🚀 Getting Started\n## 📦 Installation\n## 💻 Usage\n## ⚙️ Configuration\n## 🏗️ Project Structure\n## 🧪 Testing\n## 🤝 Contributing\n## 📄 License\n## 🙏 Acknowledgments\n```\n\n## 5b. INSTALLATION GUIDE (CRITICAL - ANALYZE ACTUAL PROJECT STRUCTURE)\n\n⚠️ IMPORTANT: ONLY include installation steps for folders that ACTUALLY EXIST in the project!\n- First, analyze the project's folder structure from the provided file list\n- If there's NO \"client\" folder, DO NOT mention \"client\" in installation\n- If there's NO \"server\" folder, DO NOT mention \"server\" in installation\n- Only include steps for folders that have their own package.json\n\nEXAMPLES OF CORRECT BEHAVIOR:\n\n**If project ONLY has root package.json (single folder project):**\n```markdown\n## 📦 Installation\n```bash\ngit clone <repository-url>\ncd projectname\nnpm install\n```\n\n## 🚀 Running\n```bash\nnpm run dev\n```\n```\n\n**If project has \"server\" folder but NO \"client\" folder:**\n```markdown\n## � Installation\n\n### 1. Install root dependencies:\n```bash\nnpm install\n```\n\n### 2. Install server dependencies:\n```bash\ncd server\nnpm install\n```\n```\n\n**If project has both \"client\" AND \"server\" folders:**\n- Then include steps for both\n\nKEY RULES FOR INSTALLATION:\n1. ⚠️ ANALYZE the actual folder structure first - don't assume folders exist\n2. ⚠️ NEVER write installation for folders that don't exist\n3. Only include subfolders that have their own package.json\n4. Use the ACTUAL folder names from the project (might be \"frontend\", \"api\", \"web\", etc.)\n5. Check the file list provided to see what folders actually exist\n\n\n## 6. CODE BLOCKS\nALWAYS specify the language for syntax highlighting:\n```bash\nnpm install package-name\n```\n```typescript\nconst example = \"Hello World\";\n```\n```python\nprint(\"Hello World\")\n```\n\n## 7. PROJECT STRUCTURE (CRITICAL - READ ACTUAL FILES!)\n\n⚠️⚠️⚠️ EXTREMELY IMPORTANT: \n- The FILE LIST is provided in the project analysis below\n- DO NOT make up folder names! Read the ACTUAL folders from the file list\n- DO NOT include folders like \"client/\", \"server/\" if they don't exist in the file list\n- ONLY show files and folders that ACTUALLY EXIST in the provided file list\n\nHOW TO CREATE THE STRUCTURE:\n1. Look at the \"Files:\" section in the project analysis\n2. List ONLY those files and folders, nothing else\n3. Use ASCII tree format with descriptions\n\nEXAMPLE FORMAT:\n```\nprojectname/\n├── src/                       # Source code\n│   ├── index.ts              # Entry point\n│   └── utils.ts              # Utility functions\n├── package.json              # Dependencies\n└── README.md                 # This file\n```\n\nWRONG (making up folders):\n```\n├── client/                   # ❌ Don't add if doesn't exist!\n├── server/                   # ❌ Don't add if doesn't exist!\n```\n\nKEY RULES:\n1. ⚠️ READ the actual file list from the analysis - don't invent folders\n2. Only show folders and files that appear in the provided file list\n3. Group by actual folder structure, not assumed structure\n4. Add helpful # descriptions for each item\n\n## 8. TABLES FOR STRUCTURED DATA\n```markdown\n| Variable | Description | Required |\n|----------|-------------|----------|\n| `API_KEY` | Your API key | Yes |\n| `DB_URL` | Database connection | Yes |\n```\n\n## 9. VISUAL ELEMENTS\n- Use horizontal rules `---` between major sections\n- Use blockquotes `>` for important notes\n- Use collapsible sections for long content:\n```markdown\n<details>\n<summary>Click to expand</summary>\nContent here\n</details>\n```\n\n" ++ hrule ++ "\n📋 QUALITY REQUIREMENTS\n" ++ hrule ++ "\n\n1. ✅ Every feature line: [emoji] **Bold Name** - Description\n2. ✅ Use inline shields.io badges with correct colors\n3. ✅ Each feature should have a DIFFERENT emoji\n4. ✅ Make descriptions detailed but concise\n5. ✅ Use proper Markdown syntax throughout\n6. ✅ Include Table of Contents for long READMEs\n7. ✅ Code blocks MUST have language specifiers\n8. ✅ Make it look like a TOP GitHub repository\n\nGenerate the README now. Make it BEAUTIFUL and PROFESSIONAL!"

/-- `buildSectionInstructions`. -/
def buildSectionInstructions (enabledSections : List String) (template : ReadmeTemplate) : String :=
  let sectionDetails := String.intercalate "\n"
    ((template.sections.filter (fun s => enabledSections.contains s.id)).map
      (fun s => "- **" ++ s.name ++ "**: " ++ s.description))
  "Generate ONLY these sections in this order:\n" ++ sectionDetails

/-- `buildUserPrompt` of `promptBuilder.ts`. -/
def buildUserPrompt (info : ProjectInfo) (detection : DetectionResult)
    (projectType : ProjectTypeDetector.ProjectTypeResult) (options : PromptOptions)
    (badges : Option String) : String :=
  let projectSummary := Scanner.getProjectSummary info
  let langsCell :=
    let s := String.intercalate ", " (detection.languages.map (·.name))
    if s = "" then "None detected" else s
  let fwCell :=
    let s := String.intercalate ", " (detection.frameworks.map (·.name))
    if s = "" then "None detected" else s
  let pmCell :=
    match detection.packageManager with
    | some pm => if pm = "" then "Unknown" else pm
    | none => "Unknown"
  let btCell :=
    let s := String.intercalate ", " detection.buildTools
    if s = "" then "None detected" else s
  let tfCell :=
    let s := String.intercalate ", " detection.testFrameworks
    if s = "" then "None detected" else s
  let prompt :=
  "Generate a README.md for the following project:\n\n" ++ hrule ++ "\n📁 PROJECT INFORMATION\n" ++ hrule ++ "\n\n" ++
  (projectSummary) ++
  "\n\n" ++ hrule ++ "\n🔍 DETECTED TECHNOLOGIES\n" ++ hrule ++ "\n\n| Category | Detected |\n|----------|----------|\n| **Project Type** | " ++
  (projectType.displayName) ++
  " |\n| **Languages** | " ++
  (langsCell) ++
  " |\n| **Frameworks** | " ++
  (fwCell) ++
  " |\n| **Package Manager** | " ++
  (pmCell) ++
  " |\n| **Build Tools** | " ++
  (btCell) ++
  " |\n| **Test Frameworks** | " ++
  (tfCell) ++
  " |\n\n" ++ hrule ++ "\n📑 TEMPLATE & SECTIONS\n" ++ hrule ++ "\n\n**Template**: \"" ++
  (options.template.name) ++
  "\"\n\n" ++
  (buildSectionInstructions options.enabledSections options.template)
  let prompt := prompt ++
    (match badges with
     | some b => if options.includeBadges ∧ b ≠ "" then
        "\n\n" ++ hrule ++ "\n🏷️ AUTO-DETECTED BADGES (Include these at the top)\n" ++ hrule ++ "\n\n" ++ b
       else ""
     | none => "")
  let prompt := prompt ++
    (match options.customBadges with
     | some cb => if cb ≠ "" ∧ jsTrim cb ≠ "" then
        "\n\n" ++ hrule ++ "\n🎯 USER-SELECTED BADGES (Include these prominently)\n" ++ hrule ++ "\n\n" ++ cb
       else ""
     | none => "")
  let prompt := prompt ++
    (match options.customInstructions with
     | some ci => if ci ≠ "" then
        "\n\n" ++ hrule ++ "\n📝 ADDITIONAL INSTRUCTIONS\n" ++ hrule ++ "\n\n" ++ ci
       else ""
     | none => "")
  prompt ++ "\n\n" ++ hrule ++ "\n🚀 GENERATE NOW\n" ++ hrule ++ "\n\nGenerate the complete README.md content following all style rules above:"

/-- `buildPrompt`: the main generation-prompt compiler. -/
def buildPrompt (info : ProjectInfo) (detection : DetectionResult)
    (projectType : ProjectTypeDetector.ProjectTypeResult) (options : PromptOptions) :
    GeneratedPrompt :=
  let badges := if options.includeBadges
    then some (BadgeGenerator.getBadgesMarkdown info detection) else none
  { systemPrompt := buildSystemPrompt options,
    userPrompt := buildUserPrompt info detection projectType options badges,
    badges := badges }

/-- `buildSectionRegeneratePrompt` of `promptBuilder.ts` (`sect` is named
`section` in the source — a Lean keyword). -/
def buildSectionRegeneratePrompt (sect : ReadmeSection) (info : ProjectInfo)
    (detection : DetectionResult) (projectType : ProjectTypeDetector.ProjectTypeResult)
    (currentContent : String) (customInstructions : Option String) : GeneratedPrompt :=
  let projectSummary := Scanner.getProjectSummary info
  let langsCell :=
    let s := String.intercalate ", " (detection.languages.map (·.name))
    if s = "" then "Unknown" else s
  let fwCell :=
    let s := String.intercalate ", " (detection.frameworks.map (·.name))
    if s = "" then "None detected" else s
  let pmCell :=
    match detection.packageManager with
    | some pm => if pm = "" then "Unknown" else pm
    | none => "Unknown"
  let systemPrompt :=
  "You are an expert technical writer. Your task is to regenerate a SPECIFIC section of a README file.\n\n" ++ hrule ++ "\n⚠️ CRITICAL INSTRUCTION\n" ++ hrule ++ "\n\nGenerate ONLY the \"" ++
  (sect.name) ++
  "\" section.\n- Do NOT include any other sections\n- Do NOT include intro or outro text\n- Do NOT include the full README\n\n" ++ hrule ++ "\n🎨 FORMATTING RULES\n" ++ hrule ++ "\n\n1. Use proper Markdown formatting with headers (##, ###)\n2. MUST use emojis in headers and bullet points\n3. For features: [emoji] **Bold Name** - Description\n4. For code blocks: ALWAYS specify language (```bash, ```javascript, etc.)\n5. Use tables for structured data\n6. Make it look BEAUTIFUL!\n\nVaried emojis to use:\n🎬 🎯 🖥️ 🎤 💬 🎨 ⚡ 🛠️ 🔒 📱 🌐 🚀 ✨ 💡 🔥 📊 🎮 🔧 📦 🎪 🌟 💎 🏆"
  let userPrompt :=
  "Regenerate the \"" ++
  (sect.name) ++
  "\" section for this project:\n\n" ++ hrule ++ "\n📁 PROJECT CONTEXT\n" ++ hrule ++ "\n\n" ++
  (projectSummary) ++
  "\n\n| Category | Value |\n|----------|-------|\n| **Project Type** | " ++
  (projectType.displayName) ++
  " |\n| **Languages** | " ++
  (langsCell) ++
  " |\n| **Frameworks** | " ++
  (fwCell) ++
  " |\n| **Package Manager** | " ++
  (pmCell) ++
  " |\n\n" ++ hrule ++ "\n📄 CURRENT README (For Reference)\n" ++ hrule ++ "\n\n```markdown\n" ++
  (currentContent) ++
  "\n```\n\n" ++ hrule ++ "\n🎯 SECTION TO REGENERATE\n" ++ hrule ++ "\n\n**" ++
  (sect.name) ++
  "**: " ++
  (sect.description)
  let userPrompt := userPrompt ++
    (match customInstructions with
     | some ci => if ci ≠ "" then
        "\n\n" ++ hrule ++ "\n📝 ADDITIONAL INSTRUCTIONS\n" ++ hrule ++ "\n\n" ++ ci
       else ""
     | none => "")
  let userPrompt := userPrompt ++
    "\n\n" ++ hrule ++ "\n🚀 GENERATE NOW\n" ++ hrule ++ "\n\nGenerate ONLY the \"" ++ sect.name ++ "\" section now:"
  { systemPrompt := systemPrompt, userPrompt := userPrompt }

end PromptBuilder
end ReadmeGen

namespace ReadmeGen
namespace Generator

open PromptBuilder Templates

/-! ## Generation orchestration (`readmeGenerator.ts`)

The credential store and the network clients are external collaborators:
`hasGroqKey` / `hasOrKey` / `provider` are the values returned by
`hasHuggingFaceApiKey()` / `hasApiKey()` / `getApiProvider()`, and a backend
call (`generateWithGroq` / `generateWithStreaming`) is modelled by the
sequence of callback events it delivers plus whether it threw. -/

/-- One observable callback delivery of the streaming protocol. -/
inductive GenEvent where
  | token (s : String)
  | complete (s : String)
  | error (message : String)
deriving DecidableEq, Repr

/-- A role-tagged chat message. -/
structure ChatMessage where
  role : String
  content : String
deriving DecidableEq, Repr

/-- `GenerationOptions` of `readmeGenerator.ts`. -/
structure GenerationOptions where
  templateId : String
  enabledSections : List String
  language : String
  tone : String
  customInstructions : Option String := none
  includeBadges : Bool
  customBadges : Option String := none
deriving DecidableEq, Repr

/-- The observable behaviour of one external backend call: the events it
delivers through the callbacks, and whether it threw. -/
structure BackendRun where
  events : List GenEvent
  threw : Bool
deriving DecidableEq, Repr

/-- `generateReadme` of `readmeGenerator.ts`, as the sequence of callback
events it delivers. -/
def generateReadme (hasGroqKey hasOrKey : Bool) (provider : String)
    (info : ProjectInfo) (detection : DetectionResult)
    (projectType : ProjectTypeDetector.ProjectTypeResult) (options : GenerationOptions)
    (groqBackend orBackend : List ChatMessage → BackendRun) : List GenEvent :=
  let useGroq := hasGroqKey && (provider == "huggingface" || !hasOrKey)
  if !hasGroqKey && !hasOrKey then
    [GenEvent.complete (OfflineFallback.generateOfflineReadme info detection projectType)]
  else
    let template := getTemplate options.templateId
    let promptOptions : PromptOptions :=
      { template := template, enabledSections := options.enabledSections,
        language := options.language, tone := options.tone,
        customInstructions := options.customInstructions,
        includeBadges := options.includeBadges, customBadges := options.customBadges }
    let gp := buildPrompt info detection projectType promptOptions
    let messages : List ChatMessage :=
      [⟨"system", gp.systemPrompt⟩, ⟨"user", gp.userPrompt⟩]
    let run := if useGroq then groqBackend messages else orBackend messages
    if run.threw then
      run.events ++ [GenEvent.error "API request failed. Using offline template.",
        GenEvent.complete (OfflineFallback.generateOfflineReadme info detection projectType)]
    else run.events

/-- The decision `regenerateSection` takes before any network traffic: either
it refuses with an error callback, or it invokes one backend with the
compiled section prompt. -/
inductive RegenAction where
  | refuse (message : String)
  | callBackend (useGroq : Bool) (messages : List ChatMessage)
deriving DecidableEq, Repr

/-- `regenerateSection` of `readmeGenerator.ts`, up to the external backend
call (`sect` is named `section` in the source — a Lean keyword). -/
def regenerateSection (hasOrKey hasGroqKey : Bool) (provider : String)
    (sect : ReadmeSection) (info : ProjectInfo) (detection : DetectionResult)
    (projectType : ProjectTypeDetector.ProjectTypeResult) (currentContent : String)
    (customInstructions : Option String) : RegenAction :=
  if !hasOrKey then
    RegenAction.refuse "API key not configured. Cannot regenerate section."
  else
    let gp := buildSectionRegeneratePrompt sect info detection projectType
      currentContent customInstructions
    let messages : List ChatMessage :=
      [⟨"system", gp.systemPrompt⟩, ⟨"user", gp.userPrompt⟩]
    let useGroq := hasGroqKey && (provider == "huggingface" || !hasOrKey)
    RegenAction.callBackend useGroq messages

/-- "A generation credential is configured": either provider key is present
(the notion used by `generateReadme`'s offline-fallback test). -/
def credentialConfigured (hasOrKey hasGroqKey : Bool) : Bool :=
  hasGroqKey || hasOrKey

end Generator
end ReadmeGen

namespace ReadmeGen
namespace HistoryManager

/-! ## Version history store (`historyManager.ts`)

The store's state is the history directory
`<workspace>/.readme-generator/history`, modelled as its list of files in
directory order, together with the live `README.md`.  A version file is named
`<timestamp>-<hash>.md`.  `Date.now()` enters as the explicit `now` argument
and the md5 hash as the `hashFn` argument; the human-readable `date` field
(`toLocaleString`, locale-dependent rendering of `timestamp`) is not
modelled.  File reads/writes/deletes are reliable state transitions. -/

/-- `MAX_VERSIONS`. -/
def MAX_VERSIONS : Nat := 20

/-- One file of the history directory. -/
structure HistFile where
  name : String
  content : String
deriving DecidableEq, Repr

/-- The history directory: its files in directory order. -/
abbrev HistoryDir := List HistFile

/-- `ReadmeVersion` of `historyManager.ts` (minus the unmodelled `date`). -/
structure ReadmeVersion where
  id : String
  timestamp : Nat
  hash : String
  preview : String
  filePath : String
deriving DecidableEq, Repr

/-- A character of the `[a-f0-9]` class of the version-file regex. -/
def isHexChar (c : Char) : Bool :=
  c.isDigit || ('a' ≤ c ∧ c ≤ 'f')

/-- `getPreview(content, maxLength = 100)`: first trimmed line that is
non-empty, no heading, no badge/image, and longer than 10 characters. -/
def getPreview (content : String) (maxLength : Nat := 100) : String :=
  let isGood := fun (l : List Char) =>
    let t := jsTrim (String.mk l)
    t ≠ "" && !jsStartsWith t "#" && !jsStartsWith t "![" && !jsStartsWith t "[![" &&
      t.data.length > 10
  match (splitLines content.data).find? isGood with
  | some l =>
    let t := jsTrim (String.mk l)
    jsSubstring t maxLength ++ (if t.data.length > maxLength then "..." else "")
  | none => jsSubstring content maxLength ++ "..."

/-- `parseInt` of a non-empty digit string. -/
def digitsToNat (ds : List Char) : Nat :=
  ds.foldl (fun n c => n * 10 + (c.toNat - 48)) 0

/-- The filename regex `^(\d+)-([a-f0-9]+)\.md$` (digits and hex characters
contain no `-`, so the greedy match is equivalent to this split at the first
dash). -/
def parseVersionChars (cs : List Char) : Option (Nat × String) :=
  let ds := cs.takeWhile (·.isDigit)
  if ds.isEmpty then none
  else match cs.dropWhile (·.isDigit) with
    | '-' :: rest =>
      let hs := rest.takeWhile isHexChar
      if hs.isEmpty then none
      else if rest.dropWhile isHexChar = ['.', 'm', 'd'] then
        some (digitsToNat ds, String.mk hs)
      else none
    | _ => none

/-- Filename parsing of `getVersions` (the `endsWith('.md')` pre-filter is
subsumed by the regex). -/
def parseVersionName (s : String) : Option (Nat × String) :=
  parseVersionChars s.data

/-- The `ReadmeVersion` record `getVersions` builds for a parsed file. -/
def versionOfFile (f : HistFile) : Option ReadmeVersion :=
  (parseVersionName f.name).map fun p =>
    { id := toString p.1 ++ "-" ++ p.2, timestamp := p.1, hash := p.2,
      preview := getPreview f.content, filePath := f.name }

/-- The comparator `(a, b) => b.timestamp - a.timestamp` as an ordering
relation: `a` precedes `b` when `a` is at least as new. -/
def tsGE (a b : ReadmeVersion) : Prop :=
  b.timestamp ≤ a.timestamp

instance : DecidableRel tsGE := fun a b => Nat.decLe _ _

instance : IsTotal ReadmeVersion tsGE :=
  ⟨fun a b => by unfold tsGE; exact Nat.le_total b.timestamp a.timestamp⟩

instance : IsTrans ReadmeVersion tsGE :=
  ⟨fun _ _ _ h1 h2 => Nat.le_trans h2 h1⟩

/-- `getVersions`: parse every matching file and sort newest-first
(stable sort by timestamp descending). -/
def getVersions (dir : HistoryDir) : List ReadmeVersion :=
  (dir.filterMap versionOfFile).insertionSort tsGE

/-- `fs.promises.writeFile`: overwrite or create. -/
def writeFile (dir : HistoryDir) (nm content : String) : HistoryDir :=
  if dir.any (fun e => e.name = nm) then
    dir.map (fun e => if e.name = nm then { e with content := content } else e)
  else dir ++ [⟨nm, content⟩]

/-- `fs.promises.unlink`. -/
def unlink (dir : HistoryDir) (nm : String) : HistoryDir :=
  dir.filter (fun e => e.name ≠ nm)

/-- `cleanupOldVersions`: delete every version beyond the newest
`MAX_VERSIONS`. -/
def cleanupOldVersions (dir : HistoryDir) : HistoryDir :=
  let versions := getVersions dir
  if versions.length ≤ MAX_VERSIONS then dir
  else ((versions.drop MAX_VERSIONS).map (·.filePath)).foldl unlink dir

/-- `saveVersion` on the history directory: write `<now>-<hash>.md`, then run
retention cleanup, and return the new `ReadmeVersion`. -/
def saveVersion (dir : HistoryDir) (now : Nat) (hashFn : String → String)
    (content : String) : HistoryDir × ReadmeVersion :=
  let hash := hashFn content
  let filename := toString now ++ "-" ++ hash ++ ".md"
  let dir₁ := writeFile dir filename content
  (cleanupOldVersions dir₁,
    { id := toString now ++ "-" ++ hash, timestamp := now, hash := hash,
      preview := getPreview content, filePath := filename })

/-- `getVersionContent`: look the id up among the parsed versions, then read
that version's file. -/
def getVersionContent (dir : HistoryDir) (versionId : String) : Option String :=
  match (getVersions dir).find? (fun v => v.id = versionId) with
  | none => none
  | some v => (dir.find? (fun e => e.name = v.filePath)).map (·.content)

/-- A workspace: the live `README.md` (if any) and the history directory. -/
structure Workspace where
  readme : Option String := none
  hist : HistoryDir := []
deriving DecidableEq, Repr

/-- `saveVersion` at workspace level (it only touches the history area). -/
def saveVersionWS (ws : Workspace) (now : Nat) (hashFn : String → String)
    (content : String) : Workspace × ReadmeVersion :=
  let r := saveVersion ws.hist now hashFn content
  ({ ws with hist := r.1 }, r.2)

/-- `rollbackToVersion`: overwrite the live `README.md` with the stored
content.  `if (!content) return false`: a missing version *or an empty
stored document* (the empty string is falsy in JS) is rejected without
writing. -/
def rollbackToVersion (ws : Workspace) (versionId : String) : Workspace × Bool :=
  match getVersionContent ws.hist versionId with
  | none => (ws, false)
  | some content =>
    if content = "" then (ws, false)
    else ({ ws with readme := some content }, true)

/-- What the real md5-hex-8 hash guarantees about `hashFn content`: a
non-empty string of `[a-f0-9]` characters. -/
def ValidHash (h : String) : Prop :=
  h ≠ "" ∧ ∀ c ∈ h.data, isHexChar c

instance (h : String) : Decidable (ValidHash h) := by
  unfold ValidHash; infer_instance

end HistoryManager
end ReadmeGen

namespace ReadmeGen

/-! ## Claim C10: template lookup is total with Open Source fallback -/

/-- **C10.** `getTemplate` is total: for every template id string it returns a
template of the five-entry catalog, and any id not among the five catalog ids
silently falls back to the Open Source template, so a generation request
never fails because of an unknown template id. -/
theorem getTemplate_total_with_fallback (templateId : String) :
    Templates.getTemplate templateId ∈ Templates.TEMPLATES.map (·.2) ∧
    (templateId ∉ Templates.TEMPLATES.map (·.1) →
      Templates.getTemplate templateId = Templates.openSourceTemplate) := by
  by_cases h : templateId ∈ Templates.TEMPLATES.map (·.1)
  · refine ⟨?_, fun hn => absurd h hn⟩
    simp only [Templates.TEMPLATES, List.map_cons, List.map_nil, List.mem_cons,
      List.not_mem_nil, or_false] at h
    rcases h with h | h | h | h | h <;> subst h <;>
      simp [Templates.getTemplate, jsLookup, Templates.TEMPLATES, List.find?]
  · have hnone : jsLookup Templates.TEMPLATES templateId = none := by
      unfold jsLookup
      rw [List.find?_eq_none.2, Option.map_none']
      intro p hp hpid
      exact h (List.mem_map.2 ⟨p, hp, by simpa using hpid⟩)
    have hfall : Templates.getTemplate templateId = Templates.openSourceTemplate := by
      unfold Templates.getTemplate
      rw [hnone]; rfl
    refine ⟨?_, fun _ => hfall⟩
    rw [hfall]
    simp [Templates.TEMPLATES]

/-- Witness for C10 at the concrete unknown id `"no-such-template"`. -/
theorem getTemplate_total_with_fallback_witness :
    Templates.getTemplate "no-such-template" = Templates.openSourceTemplate :=
  (getTemplate_total_with_fallback "no-such-template").2 (by decide)

/-! ## Claim C5: monorepo rule precedes the mobile rule -/

open ProjectTypeDetector in
/-- **C5.** For every `(ProjectInfo, DetectionResult)` pair in which the
manifest has a `workspaces` field (or a lerna/pnpm-workspace marker file
exists) and a mobile framework is also detected, `detectProjectType` returns
the monorepo archetype at confidence 0.9 — not mobile. -/
theorem detectProjectType_monorepo_precedes_mobile
    (info : ProjectInfo) (detection : DetectionResult)
    (hws : hasWorkspaces info = true)
    (_hmob : detection.frameworks.any (fun f => mobileFrameworks.contains f.name) = true) :
    detectProjectType info detection =
      ⟨"monorepo", "Monorepo", 0.9, "Detected workspace configuration"⟩ := by
  unfold detectProjectType
  rw [if_pos hws]

open ProjectTypeDetector in
/-- Witness for C5: a workspaces manifest together with a detected React
Native framework classifies as monorepo. -/
theorem detectProjectType_monorepo_precedes_mobile_witness :
    detectProjectType
      { name := "p", rootPath := "/p", files := [],
        packageJson := some { workspaces := true } }
      { frameworks := [⟨"React Native", "Mobile Framework", 1⟩] } =
      ⟨"monorepo", "Monorepo", 0.9, "Detected workspace configuration"⟩ :=
  detectProjectType_monorepo_precedes_mobile _ _ (by decide) (by decide)

/-! ## Claim C9: the classifier is total with confidence in [0.3, 0.95] -/

set_option maxHeartbeats 3000000 in
open ProjectTypeDetector in
/-- **C9.** `detectProjectType` is total: for every input it returns one of
the nine closed archetypes, and its confidence lies in `[0.3, 0.95]` — in
particular it is never 0 and never exceeds 1 (the library rule caps at 0.9,
reached with all four score terms). -/
theorem detectProjectType_total (info : ProjectInfo) (detection : DetectionResult) :
    (detectProjectType info detection).type ∈ archetypes ∧
    (3 : ℚ)/10 ≤ (detectProjectType info detection).confidence ∧
    (detectProjectType info detection).confidence ≤ 19/20 := by
  unfold detectProjectType
  dsimp only
  by_cases h1 : hasWorkspaces info = true
  · rw [if_pos h1]; exact ⟨by simp [archetypes], by norm_num, by norm_num⟩
  rw [if_neg h1]
  by_cases h2 : (detection.frameworks.any fun f => mobileFrameworks.contains f.name) = true
  · rw [if_pos h2]; exact ⟨by simp [archetypes], by norm_num, by norm_num⟩
  rw [if_neg h2]
  by_cases h3 : (detection.frameworks.any fun f => desktopFrameworks.contains f.name) = true
  · rw [if_pos h3]; exact ⟨by simp [archetypes], by norm_num, by norm_num⟩
  rw [if_neg h3]
  by_cases h4 : ((match info.packageJson with | some p => p.bin | none => false) || hasCliKeyword info) = true
  · rw [if_pos h4]
    exact ⟨by simp [archetypes], by norm_num, by norm_num⟩
  rw [if_neg h4]
  repeat' split
  all_goals exact ⟨by simp [archetypes], by norm_num, by norm_num⟩

/-! ## Claim C6: the library rule's confidence formula -/

/-- The number of library-style manifest fields present (`main`,
`types`/`typings`, `exports`) — the quantity the specification scales the
library confidence by. -/
def libraryFieldCount (pkg : PackageJson) : Nat :=
  (if pkg.main then 1 else 0) + (if pkg.types || pkg.typings then 1 else 0) +
    (if pkg.exports then 1 else 0)

open ProjectTypeDetector in
/-- **C6, counterexample.** A non-private manifest exposing exactly one
library-style field (`main`) and matching no earlier rule classifies as
`library` with confidence 0.8, not the claimed `0.7 + 0.05 × 1 = 0.75`:
the source's score also counts the non-private check itself. -/
theorem detectProjectType_library_confidence_counterexample :
    (detectProjectType
        { name := "p", rootPath := "/p", files := [], packageJson := some { main := true } }
        {}).type = "library" ∧
    libraryFieldCount { main := true } = 1 ∧
    (detectProjectType
        { name := "p", rootPath := "/p", files := [], packageJson := some { main := true } }
        {}).confidence = 4/5 ∧
    ¬((detectProjectType
        { name := "p", rootPath := "/p", files := [], packageJson := some { main := true } }
        {}).confidence = 7/10 + 1 * (1/20)) := by
  refine ⟨?_, by decide, ?_, ?_⟩ <;>
    norm_num [detectProjectType, hasWorkspaces, hasCliKeyword]

open ProjectTypeDetector in
/-- **C6, amended.** When no earlier rule (monorepo, mobile, desktop, cli)
matches, the manifest is present and not marked private, and at least one
library-style field (`main`, `types`/`typings`, `exports`) is present,
`detectProjectType` returns the library archetype with confidence
`0.7 + 0.05 × (number of matched library-style fields + 1)` — the source's
`libraryScore` counts the non-private check as a fourth score term, so the
confidence sits one 0.05 step above the claimed `0.7 + 0.05 × fields`. -/
theorem detectProjectType_library_confidence (info : ProjectInfo)
    (detection : DetectionResult) (pkg : PackageJson)
    (hpkg : info.packageJson = some pkg)
    (hws : hasWorkspaces info = false)
    (hmob : (detection.frameworks.any fun f => mobileFrameworks.contains f.name) = false)
    (hdesk : (detection.frameworks.any fun f => desktopFrameworks.contains f.name) = false)
    (hbin : pkg.bin = false)
    (hcli : hasCliKeyword info = false)
    (hpriv : pkg.isPrivate = false)
    (hfield : 1 ≤ libraryFieldCount pkg) :
    detectProjectType info detection =
      ⟨"library", "Library/Package", 7/10 + ((libraryFieldCount pkg : ℚ) + 1) * (1/20),
        "Has library configuration (main, types, exports)"⟩ := by
  unfold detectProjectType
  dsimp only
  rw [hpkg]
  dsimp only
  rw [if_neg (by simp only [hws]; decide), if_neg (by simp only [hmob]; decide),
    if_neg (by simp only [hdesk]; decide), if_neg (by simp only [hbin, hcli]; decide)]
  have hscore : ((if pkg.main = true then 1 else 0) +
      (if (pkg.types || pkg.typings) = true then 1 else 0) +
      (if pkg.exports = true then 1 else 0) : Nat) = libraryFieldCount pkg := rfl
  rw [if_pos]
  · simp only [hpriv, Bool.not_false, if_pos rfl, hscore, ProjectTypeResult.mk.injEq]
    refine ⟨trivial, trivial, ?_, trivial⟩
    push_cast
    ring_nf
  · constructor
    · simp only [hpriv, Bool.not_false, eq_self_iff_true, if_true, hscore]
      omega
    · simp [hpriv]

open ProjectTypeDetector in
/-- Witness for amended C6: `main` + `types`, not private — two matched
fields, confidence `0.7 + 0.05 × 3 = 0.85`. -/
theorem detectProjectType_library_confidence_witness :
    detectProjectType
      { name := "p", rootPath := "/p", files := [],
        packageJson := some { main := true, types := true } }
      {} =
      ⟨"library", "Library/Package",
        7/10 + ((libraryFieldCount { main := true, types := true } : ℚ) + 1) * (1/20),
        "Has library configuration (main, types, exports)"⟩ :=
  detectProjectType_library_confidence _ _ _ rfl (by decide) (by decide) (by decide)
    (by decide) (by decide) (by decide) (by decide)

/-! ## Claim C4: offline fallback when no credential is configured -/

open Generator in
/-- **C4.** Whenever no generation credential is configured (neither provider
key is present), `generateReadme` terminates by calling `onComplete` exactly
once with non-empty offline-generated content, and never calls `onError`:
its delivered event trace is exactly one `complete` event carrying the
offline README, which is never the empty string. -/
theorem generateReadme_offline_without_credentials
    (provider : String) (info : ProjectInfo) (detection : DetectionResult)
    (projectType : ProjectTypeDetector.ProjectTypeResult) (options : GenerationOptions)
    (groqBackend orBackend : List ChatMessage → BackendRun)
    (hg : hasGroqKey = false) (ho : hasOrKey = false) :
    generateReadme hasGroqKey hasOrKey provider info detection projectType options
        groqBackend orBackend =
      [GenEvent.complete (OfflineFallback.generateOfflineReadme info detection projectType)] ∧
    OfflineFallback.generateOfflineReadme info detection projectType ≠ "" := by
  subst hg ho
  refine ⟨rfl, ?_⟩
  have h2 : (2 : Nat) ≤ (OfflineFallback.generateOfflineReadme info detection projectType).length := by
    unfold OfflineFallback.generateOfflineReadme
    dsimp only
    simp only [String.length_append]
    have hl : ("# ").length = 2 := rfl
    omega
  intro hcontra
  rw [hcontra] at h2
  simp at h2

open Generator in
/-- Witness for C4 at a concrete empty project with no credentials. -/
theorem generateReadme_offline_without_credentials_witness :
    generateReadme false false "openrouter" { name := "p", rootPath := "/p", files := [] }
        {} ⟨"unknown", "Project", 0.3, "Could not determine project type"⟩
        ⟨"openSource", ["title"], "english", "professional", none, false, none⟩
        (fun _ => ⟨[], false⟩) (fun _ => ⟨[], false⟩) =
      [GenEvent.complete (OfflineFallback.generateOfflineReadme
        { name := "p", rootPath := "/p", files := [] } {}
        ⟨"unknown", "Project", 0.3, "Could not determine project type"⟩)] ∧
    OfflineFallback.generateOfflineReadme { name := "p", rootPath := "/p", files := [] } {}
        ⟨"unknown", "Project", 0.3, "Could not determine project type"⟩ ≠ "" :=
  generateReadme_offline_without_credentials "openrouter" _ _ _ _ _ _ rfl rfl

/-! ## Claim C8: section regeneration refuses on the OpenRouter key alone -/

open Generator PromptBuilder Templates in
/-- **C8, counterexample.** The claim says `regenerateSection` refuses *iff
no generation credential is configured*.  But with a Groq key configured
(`hasGroqKey = true`) and no OpenRouter key, a generation credential *is*
configured (the same configuration makes `generateReadme` use the Groq
backend), yet `regenerateSection` still refuses: the refusal test consults
only the OpenRouter key. -/
theorem regenerateSection_counterexample :
    regenerateSection false true "huggingface"
        ⟨"features", "Features", "Key features and capabilities", true⟩
        { name := "p", rootPath := "/p", files := [] } {}
        ⟨"unknown", "Project", 0.3, "Could not determine project type"⟩ "# p" none =
      RegenAction.refuse "API key not configured. Cannot regenerate section." ∧
    credentialConfigured false true = true :=
  ⟨rfl, rfl⟩

open Generator PromptBuilder Templates in
/-- **C8, amended.** `regenerateSection` refuses by calling `onError` (and
performs no generation) if and only if the *OpenRouter* key is not
configured — the Groq key is not consulted for the refusal decision; when
the OpenRouter key is configured it proceeds to compile the section prompt
and invoke a backend with it. -/
theorem regenerateSection_refuses_iff_no_openrouter_key
    (hasOrKey hasGroqKey : Bool) (provider : String) (sect : ReadmeSection)
    (info : ProjectInfo) (detection : DetectionResult)
    (projectType : ProjectTypeDetector.ProjectTypeResult)
    (currentContent : String) (customInstructions : Option String) :
    ((∃ m, regenerateSection hasOrKey hasGroqKey provider sect info detection projectType
        currentContent customInstructions = RegenAction.refuse m) ↔ hasOrKey = false) ∧
    (hasOrKey = true →
      regenerateSection hasOrKey hasGroqKey provider sect info detection projectType
          currentContent customInstructions =
        RegenAction.callBackend (hasGroqKey && (provider == "huggingface"))
          [⟨"system", (buildSectionRegeneratePrompt sect info detection projectType
              currentContent customInstructions).systemPrompt⟩,
           ⟨"user", (buildSectionRegeneratePrompt sect info detection projectType
              currentContent customInstructions).userPrompt⟩]) := by
  cases hasOrKey
  · constructor
    · simp only [iff_true]
      exact ⟨"API key not configured. Cannot regenerate section.", rfl⟩
    · intro h; cases h
  · constructor
    · simp [regenerateSection]
    · intro _
      simp [regenerateSection]

open Generator PromptBuilder Templates in
/-- Witness for amended C8: with the OpenRouter key configured and provider
`"openrouter"`, regeneration invokes the OpenRouter backend with the
compiled section prompt. -/
theorem regenerateSection_refuses_iff_no_openrouter_key_witness :
    regenerateSection true true "openrouter"
        ⟨"features", "Features", "Key features and capabilities", true⟩
        { name := "p", rootPath := "/p", files := [] } {}
        ⟨"unknown", "Project", 0.3, "Could not determine project type"⟩ "# p" none =
      RegenAction.callBackend (true && ("openrouter" == "huggingface"))
        [⟨"system", (buildSectionRegeneratePrompt
            ⟨"features", "Features", "Key features and capabilities", true⟩
            { name := "p", rootPath := "/p", files := [] } {}
            ⟨"unknown", "Project", 0.3, "Could not determine project type"⟩
            "# p" none).systemPrompt⟩,
         ⟨"user", (buildSectionRegeneratePrompt
            ⟨"features", "Features", "Key features and capabilities", true⟩
            { name := "p", rootPath := "/p", files := [] } {}
            ⟨"unknown", "Project", 0.3, "Could not determine project type"⟩
            "# p" none).userPrompt⟩] :=
  (regenerateSection_refuses_iff_no_openrouter_key true true "openrouter" _ _ _ _ _ _).2 rfl

/-! ## Claim C7: badge de-duplication -/

namespace BadgeGenerator

/-- The invariant of the `generateAllBadges` accumulation: the built badge
list is exactly the badge of each key of the (duplicate-free) `addedKeys`
trace. -/
def AddState (style : String) (st : List Badge × List String) : Prop :=
  st.1 = st.2.filterMap (fun k => createBadge k style) ∧ st.2.Nodup

theorem addBadge_addState (style : String) (st : List Badge × List String)
    (key : String) (h : AddState style st) : AddState style (addBadge style st key) := by
  obtain ⟨h1, h2⟩ := h
  unfold addBadge
  split
  · exact ⟨h1, h2⟩
  · rename_i hk
    have hk' : key ∉ st.2 := fun hmem =>
      hk (List.contains_iff_exists_mem_beq.2 ⟨key, hmem, by simp⟩)
    split
    · rename_i b hc
      refine ⟨?_, ?_⟩
      · rw [List.filterMap_append, h1]
        simp [hc]
      · simp only [List.nodup_append, List.nodup_cons, List.nodup_nil]
        exact ⟨h2, by simp, fun a ha hb => hk' ((List.mem_singleton.1 hb) ▸ ha)⟩
    · exact ⟨h1, h2⟩

theorem foldl_addBadge_addState (style : String) (keys : List String) :
    ∀ st, AddState style st → AddState style (keys.foldl (addBadge style) st) := by
  induction keys with
  | nil => intro st h; exact h
  | cons k ks ih => intro st h; exact ih _ (addBadge_addState style st k h)

set_option maxRecDepth 20000 in
/-- Distinct badge keys have distinct display labels (checked over the whole
badge database). -/
theorem techBadges_labels_nodup :
    (TECH_BADGES.map (fun p => decodeLabel p.2.name)).Nodup := by decide

set_option maxRecDepth 20000 in
/-- The badge-database keys are pairwise distinct. -/
theorem techBadges_keys_nodup : (TECH_BADGES.map (·.1)).Nodup := by decide

/-- `getCategoryForKey` never returns the `meta` category. -/
theorem getCategoryForKey_ne_meta (key : String) : getCategoryForKey key ≠ "meta" := by
  unfold getCategoryForKey
  split_ifs <;> decide

/-- The label a key produces, when it is in the database. -/
theorem createBadge_label_inj (style : String) :
    ∀ k1 k2 b1 b2, createBadge k1 style = some b1 → createBadge k2 style = some b2 →
      b1.label = b2.label → k1 = k2 := by
  intro k1 k2 b1 b2 hb1 hb2 hlab
  unfold createBadge jsLookup at hb1 hb2
  cases hf1 : TECH_BADGES.find? (fun p => p.1 = k1) with
  | none => rw [hf1] at hb1; simp at hb1
  | some e1 =>
    cases hf2 : TECH_BADGES.find? (fun p => p.1 = k2) with
    | none => rw [hf2] at hb2; simp at hb2
    | some e2 =>
      rw [hf1] at hb1; rw [hf2] at hb2
      simp only [Option.map_some', Option.some_inj] at hb1 hb2
      have he1m : e1 ∈ TECH_BADGES := List.mem_of_find?_eq_some hf1
      have he2m : e2 ∈ TECH_BADGES := List.mem_of_find?_eq_some hf2
      have hk1 : e1.1 = k1 := by simpa using List.find?_some hf1
      have hk2 : e2.1 = k2 := by simpa using List.find?_some hf2
      have hlabels : decodeLabel e1.2.name = decodeLabel e2.2.name := by
        rw [← hb1, ← hb2] at hlab
        simpa using hlab
      have := List.inj_on_of_nodup_map techBadges_labels_nodup he1m he2m hlabels
      rw [← hk1, ← hk2, this]

end BadgeGenerator

open BadgeGenerator in
/-- **C7.** Each technology badge key contributes at most one badge to
`generateAllBadges`' output regardless of how many detection signals map to
it: the display labels of the non-meta badges are pairwise distinct for
*every* input.  In particular, in a project where React is detected both as
a manifest dependency and as a framework match, exactly one React badge is
emitted. -/
theorem generateAllBadges_dedup :
    (∀ (info : ProjectInfo) (detection : DetectionResult) (style : String),
      (((generateAllBadges info detection style).filter
        (fun b => b.category ≠ "meta")).map (·.label)).Nodup) ∧
    ((generateAllBadges
        { name := "p", rootPath := "/p", files := [],
          packageJson := some { dependencies := some ["react"] } }
        { frameworks := [⟨"React", "Frontend Framework", 1⟩] } "flat-square").filter
      (fun b => b.label = "React")).length = 1 := by
  constructor
  · intro info detection style
    have hst := foldl_addBadge_addState style (badgeKeyCandidates info detection)
      ([], []) ⟨rfl, List.nodup_nil⟩
    set st := (badgeKeyCandidates info detection).foldl (addBadge style) ([], []) with hstdef
    obtain ⟨h1, h2⟩ := hst
    have htechcat : ∀ b ∈ st.1, b.category ≠ "meta" := by
      intro b hb
      rw [h1] at hb
      obtain ⟨k, -, hk⟩ := List.mem_filterMap.1 hb
      unfold createBadge at hk
      cases hf : jsLookup TECH_BADGES k with
      | none => rw [hf] at hk; simp at hk
      | some c =>
        rw [hf] at hk
        simp only [Option.map_some', Option.some_inj] at hk
        rw [← hk]
        exact getCategoryForKey_ne_meta k
    have hlic : ∀ b, generateLicenseBadge info = some b → b.category = "meta" := by
      intro b hb
      unfold generateLicenseBadge at hb
      split at hb
      · cases hb
      · split at hb
        · cases hb
        · cases hb; rfl
    have hver : ∀ b, generateVersionBadge info = some b → b.category = "meta" := by
      intro b hb
      unfold generateVersionBadge at hb
      split at hb
      · cases hb
      · split at hb
        · cases hb
        · cases hb; rfl
    have metaFilter : ∀ (o : Option Badge), (∀ b, o = some b → b.category = "meta") →
        o.toList.filter (fun b => b.category ≠ "meta") = [] := by
      intro o h
      cases o with
      | none => rfl
      | some b => simp [h b rfl]
    have hfl : (generateAllBadges info detection style).filter
        (fun b => b.category ≠ "meta") = st.1 := by
      unfold generateAllBadges
      rw [← hstdef]
      rw [List.filter_append, List.filter_append, List.filter_append]
      rw [metaFilter _ hlic, metaFilter _ hver]
      rw [List.filter_eq_self.2 (by intro b hb; simpa using htechcat b hb)]
      simp [generatePRsWelcomeBadge]
    rw [hfl, h1, List.map_filterMap]
    refine List.Nodup.filterMap ?_ h2
    intro a a' b hb hb'
    simp only [Option.mem_def, Option.map_eq_some'] at hb hb'
    obtain ⟨ba, hba, hlba⟩ := hb
    obtain ⟨ba', hba', hlba'⟩ := hb'
    exact createBadge_label_inj style a a' ba ba' hba hba' (by rw [hlba, hlba'])
  · decide

/-! ## Claims C2 and C3: supporting lemmas for the version store -/

namespace HistoryManager

theorem digitChar_spec :
    ∀ m, m < 10 → (Nat.digitChar m).isDigit = true ∧ (Nat.digitChar m).toNat - 48 = m := by
  decide

theorem toDigitsCore_spec :
    ∀ (fuel n : Nat) (acc : List Char), n < fuel →
      ∃ ds, Nat.toDigitsCore 10 fuel n acc = ds ++ acc ∧ ds ≠ [] ∧
        (∀ c ∈ ds, c.isDigit = true) ∧ digitsToNat ds = n := by
  intro fuel
  induction fuel with
  | zero => intro n acc h; omega
  | succ f ih =>
    intro n acc h
    simp only [Nat.toDigitsCore]
    by_cases hz : n / 10 = 0
    · have hlt : n < 10 := by omega
      refine ⟨[Nat.digitChar (n % 10)], by simp [hz], by simp, ?_, ?_⟩
      · intro c hc
        simp only [List.mem_singleton] at hc
        subst hc
        exact (digitChar_spec _ (Nat.mod_lt _ (by norm_num))).1
      · unfold digitsToNat
        simp only [List.foldl_cons, List.foldl_nil, Nat.zero_mul, Nat.zero_add]
        rw [(digitChar_spec _ (Nat.mod_lt _ (by norm_num))).2]
        omega
    · have h10 : 10 ≤ n := by
        rcases Nat.lt_or_ge n 10 with hlt | hge
        · exact absurd (Nat.div_eq_of_lt hlt) hz
        · exact hge
      have hlt : n / 10 < f := by
        have hd : n / 10 < n := Nat.div_lt_self (by omega) (by norm_num)
        omega
      obtain ⟨ds', heq, hne, hdig, hval⟩ := ih (n / 10) (Nat.digitChar (n % 10) :: acc) hlt
      rw [if_neg hz, heq]
      refine ⟨ds' ++ [Nat.digitChar (n % 10)], by rw [List.append_assoc]; rfl, by simp, ?_, ?_⟩
      · intro c hc
        rcases List.mem_append.1 hc with hc | hc
        · exact hdig c hc
        · simp only [List.mem_singleton] at hc
          subst hc
          exact (digitChar_spec _ (Nat.mod_lt _ (by norm_num))).1
      · unfold digitsToNat at hval ⊢
        rw [List.foldl_append]
        simp only [List.foldl_cons, List.foldl_nil]
        rw [hval, (digitChar_spec _ (Nat.mod_lt _ (by norm_num))).2]
        omega

theorem toString_nat_spec (n : Nat) :
    (toString n).data ≠ [] ∧ (∀ c ∈ (toString n).data, c.isDigit = true) ∧
      digitsToNat (toString n).data = n := by
  have hdef : (toString n).data = Nat.toDigitsCore 10 (n + 1) n [] := rfl
  obtain ⟨ds, heq, hne, hdig, hval⟩ := toDigitsCore_spec (n + 1) n [] (Nat.lt_succ_self n)
  rw [List.append_nil] at heq
  rw [hdef, heq]
  exact ⟨hne, hdig, hval⟩

theorem takeWhile_append_stop (p : Char → Bool) (l : List Char) (c : Char) (r : List Char)
    (hl : ∀ x ∈ l, p x = true) (hc : p c = false) :
    (l ++ c :: r).takeWhile p = l ∧ (l ++ c :: r).dropWhile p = c :: r := by
  induction l with
  | nil => simp [List.takeWhile, List.dropWhile, hc]
  | cons x xs ih =>
    have hx : p x = true := hl x (List.mem_cons_self x xs)
    have ihr := ih (fun y hy => hl y (List.mem_cons_of_mem x hy))
    simp only [List.cons_append, List.takeWhile_cons, List.dropWhile_cons, hx, if_true]
    exact ⟨by rw [ihr.1], by rw [ihr.2]⟩

/-- Round trip: the filename written by `saveVersion` parses back to its
timestamp and hash. -/
theorem parseVersionName_mk (now : Nat) (h : String) (hh : ValidHash h) :
    parseVersionName (toString now ++ "-" ++ h ++ ".md") = some (now, h) := by
  obtain ⟨hne, hdig, hval⟩ := toString_nat_spec now
  obtain ⟨hhne, hhex⟩ := hh
  unfold parseVersionName parseVersionChars
  have hdata : (toString now ++ "-" ++ h ++ ".md").data =
      (toString now).data ++ '-' :: (h.data ++ ['.', 'm', 'd']) := by
    simp [String.data_append]
  rw [hdata]
  have hdash : ('-').isDigit = false := rfl
  obtain ⟨htake, hdrop⟩ := takeWhile_append_stop Char.isDigit (toString now).data '-'
    (h.data ++ ['.', 'm', 'd']) hdig hdash
  rw [htake, hdrop]
  have hhd : ∀ x ∈ h.data, isHexChar x = true := hhex
  have hdot : isHexChar '.' = false := rfl
  obtain ⟨htake2, hdrop2⟩ := takeWhile_append_stop isHexChar h.data '.' ['m', 'd'] hhd hdot
  have hempty : (toString now).data.isEmpty = false := by
    cases hx : (toString now).data with
    | nil => exact absurd hx hne
    | cons a as => rfl
  rw [if_neg (by simp [hempty])]
  simp only [htake2, hdrop2]
  have hhdempty : h.data.isEmpty = false := by
    cases hx : h.data with
    | nil => exact absurd (String.ext (show h.data = ("" : String).data by rw [hx])) hhne
    | cons a as => rfl
  rw [if_neg (by simp [hhdempty]), if_pos trivial, hval]

open List in
theorem getVersions_sorted (dir : HistoryDir) : (getVersions dir).Sorted tsGE :=
  List.sorted_insertionSort tsGE _

theorem getVersions_perm (dir : HistoryDir) :
    List.Perm (getVersions dir) (dir.filterMap versionOfFile) :=
  List.perm_insertionSort tsGE _

/-- In a descending-sorted list, an element strictly newer than every other
element is the head. -/
theorem eq_cons_of_sorted_max (l : List ReadmeVersion) (x : ReadmeVersion)
    (hs : l.Sorted tsGE) (hx : x ∈ l)
    (hmax : ∀ y ∈ l, y ≠ x → y.timestamp < x.timestamp) : l = x :: l.tail := by
  cases l with
  | nil => cases hx
  | cons a t =>
    by_cases hax : a = x
    · subst hax
      rfl
    · exfalso
      have h1 : x ∈ t := by
        rcases List.mem_cons.1 hx with h | h
        · exact absurd h.symm hax
        · exact h
      have h2 : tsGE a x := List.rel_of_sorted_cons hs x h1
      have h3 : a.timestamp < x.timestamp := hmax a (List.mem_cons_self a t) hax
      unfold tsGE at h2
      omega

theorem versionOfFile_filePath (e : HistFile) (v : ReadmeVersion)
    (h : versionOfFile e = some v) : v.filePath = e.name := by
  unfold versionOfFile at h
  cases hp : parseVersionName e.name with
  | none => rw [hp] at h; cases h
  | some p => rw [hp] at h; cases h; rfl

theorem versionOfFile_timestamp (e : HistFile) (v : ReadmeVersion)
    (h : versionOfFile e = some v) : parseVersionName e.name = some (v.timestamp, v.hash) := by
  unfold versionOfFile at h
  cases hp : parseVersionName e.name with
  | none => rw [hp] at h; cases h
  | some p => rw [hp] at h; cases h; rfl

/-- The version record `saveVersion` builds, as parsed back from its file. -/
theorem versionOfFile_new (now : Nat) (h : String) (content : String) (hh : ValidHash h) :
    versionOfFile ⟨toString now ++ "-" ++ h ++ ".md", content⟩ =
      some ⟨toString now ++ "-" ++ h, now, h, getPreview content,
        toString now ++ "-" ++ h ++ ".md"⟩ := by
  unfold versionOfFile
  rw [parseVersionName_mk now h hh]
  rfl

/-- Freshness: when every stored version is older than `now`, no file of the
directory already carries the new version's name. -/
theorem newname_fresh (dir : HistoryDir) (now : Nat) (h : String) (hh : ValidHash h)
    (hts : ∀ v ∈ getVersions dir, v.timestamp < now) :
    ∀ e ∈ dir, e.name ≠ toString now ++ "-" ++ h ++ ".md" := by
  intro e he heq
  have hv : versionOfFile e = some ⟨toString now ++ "-" ++ h, now, h, getPreview e.content,
      toString now ++ "-" ++ h ++ ".md"⟩ := by
    unfold versionOfFile
    rw [heq, parseVersionName_mk now h hh]
    rfl
  have hmem : (⟨toString now ++ "-" ++ h, now, h, getPreview e.content,
      toString now ++ "-" ++ h ++ ".md"⟩ : ReadmeVersion) ∈ getVersions dir :=
    (getVersions_perm dir).mem_iff.2 (List.mem_filterMap.2 ⟨e, he, hv⟩)
  exact absurd (hts _ hmem) (by simp)

theorem writeFile_fresh (dir : HistoryDir) (nm c : String)
    (hf : ∀ e ∈ dir, e.name ≠ nm) : writeFile dir nm c = dir ++ [⟨nm, c⟩] := by
  unfold writeFile
  rw [if_neg]
  intro hany
  obtain ⟨e, he, hne⟩ := List.any_eq_true.1 hany
  exact hf e he (by simpa using hne)

theorem writeFile_names_nodup (dir : HistoryDir) (nm c : String)
    (hnd : (dir.map (·.name)).Nodup) : ((writeFile dir nm c).map (·.name)).Nodup := by
  unfold writeFile
  split
  · have : (dir.map fun e => if e.name = nm then ({ e with content := c } : HistFile) else e).map
        (·.name) = dir.map (·.name) := by
      rw [List.map_map]
      refine List.map_congr_left ?_
      intro e _
      by_cases he : e.name = nm
      · simp [he]
      · simp [he]
    rw [this]
    exact hnd
  · rename_i hany
    rw [List.map_append, List.nodup_append]
    refine ⟨hnd, by simp, ?_⟩
    intro a ha hb
    simp only [List.map_cons, List.map_nil, List.mem_singleton] at hb
    subst hb
    obtain ⟨e, he, hename⟩ := List.mem_map.1 ha
    exact hany (List.any_eq_true.2 ⟨e, he, by simp [hename]⟩)

theorem foldl_unlink_eq_filter :
    ∀ (names : List String) (d : HistoryDir),
      names.foldl unlink d = d.filter (fun e => !(names.contains e.name)) := by
  intro names
  induction names with
  | nil =>
    intro d
    simp only [List.foldl_nil, List.contains_nil, Bool.not_false]
    rw [List.filter_eq_self.2 (fun a _ => rfl)]
  | cons n ns ih =>
    intro d
    rw [List.foldl_cons, ih (unlink d n)]
    unfold unlink
    rw [List.filter_filter]
    refine List.filter_congr ?_
    intro e _
    simp only [List.contains_cons, Bool.not_or]
    by_cases he : e.name = n <;> simp [he, Bool.and_comm]

theorem filterMap_filter_names (d : HistoryDir) (p : String → Bool) :
    (d.filter (fun e => p e.name)).filterMap versionOfFile =
      (d.filterMap versionOfFile).filter (fun v => p v.filePath) := by
  induction d with
  | nil => rfl
  | cons e t ih =>
    by_cases hp : p e.name
    · rw [List.filter_cons_of_pos (by simpa using hp)]
      cases hv : versionOfFile e with
      | none =>
        rw [List.filterMap_cons_none hv, List.filterMap_cons_none hv]
        exact ih
      | some v =>
        rw [List.filterMap_cons_some hv, List.filterMap_cons_some hv]
        rw [List.filter_cons_of_pos
          (by rw [versionOfFile_filePath e v hv]; simpa using hp)]
        rw [ih]
    · rw [List.filter_cons_of_neg (by simpa using hp)]
      cases hv : versionOfFile e with
      | none =>
        rw [List.filterMap_cons_none hv]
        exact ih
      | some v =>
        rw [List.filterMap_cons_some hv]
        rw [List.filter_cons_of_neg
          (by rw [versionOfFile_filePath e v hv]; simpa using hp)]
        exact ih

theorem getVersions_filter_names (d : HistoryDir) (p : String → Bool) :
    List.Perm (getVersions (d.filter (fun e => p e.name)))
      ((getVersions d).filter (fun v => p v.filePath)) := by
  refine (getVersions_perm _).trans ?_
  rw [filterMap_filter_names]
  exact ((getVersions_perm d).filter _).symm

theorem filterMap_filePaths_sublist (d : HistoryDir) :
    List.Sublist ((d.filterMap versionOfFile).map (·.filePath)) (d.map (·.name)) := by
  induction d with
  | nil => exact List.Sublist.refl _
  | cons e t ih =>
    cases hv : versionOfFile e with
    | none =>
      rw [List.filterMap_cons_none hv, List.map_cons]
      exact ih.cons _
    | some v =>
      rw [List.filterMap_cons_some hv, List.map_cons, List.map_cons,
        versionOfFile_filePath e v hv]
      exact ih.cons₂ _

theorem getVersions_filePaths_nodup (d : HistoryDir)
    (hnd : (d.map (·.name)).Nodup) : ((getVersions d).map (·.filePath)).Nodup := by
  have hperm : List.Perm ((getVersions d).map (·.filePath))
      ((d.filterMap versionOfFile).map (·.filePath)) :=
    (getVersions_perm d).map _
  rw [hperm.nodup_iff]
  exact hnd.sublist (filterMap_filePaths_sublist d)

theorem list_contains_eq (l : List String) (s : String) :
    l.contains s = decide (s ∈ l) := by
  simp [List.contains]

theorem filter_keep_take_gen (l : List ReadmeVersion) (k : Nat) (ns : List String)
    (hkeep : ∀ a ∈ l.take k, ns.contains a.filePath = false)
    (hstop : ∀ a ∈ l.drop k, ns.contains a.filePath = true) :
    l.filter (fun v => !(ns.contains v.filePath)) = l.take k := by
  conv_lhs => rw [← List.take_append_drop k l]
  rw [List.filter_append]
  rw [List.filter_eq_self.2 (fun a ha => by rw [hkeep a ha]; rfl)]
  rw [show (l.drop k).filter (fun v => !(ns.contains v.filePath)) = [] from ?_,
    List.append_nil]
  rw [List.filter_eq_nil_iff]
  intro a ha
  rw [hstop a ha]
  simp

/-- When the `filePath` projections of `l` are pairwise distinct, filtering
out exactly the paths of `l.drop k` keeps exactly `l.take k`, in order. -/
theorem filter_keep_take (l : List ReadmeVersion) (k : Nat)
    (hnd : (l.map (·.filePath)).Nodup) :
    l.filter (fun v => !(((l.drop k).map (·.filePath)).contains v.filePath)) = l.take k := by
  have hnd' : ((l.take k).map (·.filePath) ++ (l.drop k).map (·.filePath)).Nodup := by
    rw [← List.map_append, List.take_append_drop]
    exact hnd
  rw [List.nodup_append] at hnd'
  obtain ⟨-, -, hdisj⟩ := hnd'
  refine filter_keep_take_gen l k _ ?_ ?_
  · intro a ha
    have hnm : a.filePath ∉ (l.drop k).map (·.filePath) :=
      fun hm => hdisj (List.mem_map_of_mem _ ha) hm
    rw [list_contains_eq]
    exact decide_eq_false hnm
  · intro a ha
    rw [list_contains_eq]
    exact decide_eq_true (List.mem_map_of_mem _ ha)

theorem cleanup_of_le (d : HistoryDir) (h : (getVersions d).length ≤ MAX_VERSIONS) :
    cleanupOldVersions d = d := by
  simp only [cleanupOldVersions]
  rw [if_pos h]

theorem cleanup_of_gt (d : HistoryDir) (h : ¬ (getVersions d).length ≤ MAX_VERSIONS) :
    cleanupOldVersions d =
      d.filter (fun e =>
        !((((getVersions d).drop MAX_VERSIONS).map (·.filePath)).contains e.name)) := by
  simp only [cleanupOldVersions]
  rw [if_neg h, foldl_unlink_eq_filter]

/-- Retention cleanup keeps exactly a newest-first cap of the parsed
versions (as a permutation: the survivors are re-sorted by `getVersions`). -/
theorem getVersions_cleanup (d : HistoryDir) (hnd : (d.map (·.name)).Nodup) :
    List.Perm (getVersions (cleanupOldVersions d))
      ((getVersions d).take MAX_VERSIONS) := by
  by_cases hle : (getVersions d).length ≤ MAX_VERSIONS
  · rw [cleanup_of_le d hle, List.take_of_length_le hle]
  · rw [cleanup_of_gt d hle]
    refine (getVersions_filter_names d
      (fun s => !((((getVersions d).drop MAX_VERSIONS).map (·.filePath)).contains s))).trans ?_
    rw [filter_keep_take (getVersions d) MAX_VERSIONS (getVersions_filePaths_nodup d hnd)]

/-- Two `tsGE`-sorted lists that are permutations of one another and have
pairwise-distinct timestamps are equal. -/
theorem sorted_perm_eq (l₁ : List ReadmeVersion) :
    ∀ l₂, l₁.Sorted tsGE → l₂.Sorted tsGE → List.Perm l₁ l₂ →
      (l₁.map (·.timestamp)).Nodup → l₁ = l₂ := by
  induction l₁ with
  | nil =>
    intro l₂ _ _ hp _
    exact (hp.symm.eq_nil).symm
  | cons a t ih =>
    intro l₂ h₁ h₂ hp hnd
    cases l₂ with
    | nil => exact absurd hp.eq_nil (List.cons_ne_nil a t)
    | cons b t₂ =>
      have hb : b ∈ a :: t := hp.mem_iff.2 (List.mem_cons_self b t₂)
      have ha : a ∈ b :: t₂ := hp.mem_iff.1 (List.mem_cons_self a t)
      have hba : b.timestamp ≤ a.timestamp := by
        rcases List.mem_cons.1 hb with h | h
        · rw [h]
        · exact List.rel_of_sorted_cons h₁ b h
      have hab : a.timestamp ≤ b.timestamp := by
        rcases List.mem_cons.1 ha with h | h
        · rw [h]
        · exact List.rel_of_sorted_cons h₂ a h
      rw [List.map_cons] at hnd
      have hnd' := List.nodup_cons.1 hnd
      have hbeq : b = a := by
        rcases List.mem_cons.1 hb with h | h
        · exact h
        · exfalso
          refine hnd'.1 ?_
          rw [Nat.le_antisymm hab hba]
          exact List.mem_map_of_mem _ h
      subst hbeq
      rw [ih t₂ h₁.of_cons h₂.of_cons hp.cons_inv hnd'.2]

/-- The freshly written version file keeps the directory's names distinct. -/
theorem append_new_names_nodup (dir : HistoryDir) (now : Nat) (h content : String)
    (hh : ValidHash h) (hts : ∀ v ∈ getVersions dir, v.timestamp < now)
    (hnd : (dir.map (·.name)).Nodup) :
    ((dir ++ [(⟨toString now ++ "-" ++ h ++ ".md", content⟩ : HistFile)]).map
      (·.name)).Nodup := by
  rw [List.map_append, List.nodup_append]
  refine ⟨hnd, by simp, ?_⟩
  intro a ha hb
  simp only [List.map_cons, List.map_nil, List.mem_singleton] at hb
  subst hb
  obtain ⟨e, he, hename⟩ := List.mem_map.1 ha
  exact newname_fresh dir now h hh hts e he hename

/-- `saveVersion` appends the fresh file and then runs retention cleanup. -/
theorem saveVersion_hist (dir : HistoryDir) (now : Nat) (hashFn : String → String)
    (content : String) (hh : ValidHash (hashFn content))
    (hts : ∀ v ∈ getVersions dir, v.timestamp < now) :
    (saveVersion dir now hashFn content).1 =
      cleanupOldVersions (dir ++
        [⟨toString now ++ "-" ++ hashFn content ++ ".md", content⟩]) := by
  simp only [saveVersion]
  rw [writeFile_fresh dir _ content (newname_fresh dir now (hashFn content) hh hts)]

/-- After writing the fresh version file, the parsed listing is the new
version followed by (a permutation of) the previous listing. -/
theorem getVersions_append_new (dir : HistoryDir) (now : Nat) (h content : String)
    (hh : ValidHash h) (hts : ∀ v ∈ getVersions dir, v.timestamp < now) :
    ∃ t, getVersions (dir ++ [⟨toString now ++ "-" ++ h ++ ".md", content⟩]) =
        (⟨toString now ++ "-" ++ h, now, h, getPreview content,
          toString now ++ "-" ++ h ++ ".md"⟩ : ReadmeVersion) :: t ∧
      List.Perm t (getVersions dir) := by
  set v₀ : ReadmeVersion :=
    ⟨toString now ++ "-" ++ h, now, h, getPreview content,
      toString now ++ "-" ++ h ++ ".md"⟩ with hv₀
  set d₁ : HistoryDir := dir ++ [⟨toString now ++ "-" ++ h ++ ".md", content⟩] with hd₁
  have hfm : d₁.filterMap versionOfFile = dir.filterMap versionOfFile ++ [v₀] := by
    rw [hd₁, List.filterMap_append,
      List.filterMap_cons_some (versionOfFile_new now h content hh)]
    rfl
  have hperm : List.Perm (getVersions d₁) (v₀ :: getVersions dir) := by
    refine (getVersions_perm _).trans ?_
    rw [hfm]
    exact (List.perm_append_singleton _ _).trans ((getVersions_perm dir).symm.cons _)
  have hmem : v₀ ∈ getVersions d₁ := hperm.mem_iff.2 (List.mem_cons_self _ _)
  have hmax : ∀ y ∈ getVersions d₁, y ≠ v₀ → y.timestamp < v₀.timestamp := by
    intro y hy hne
    rcases List.mem_cons.1 (hperm.mem_iff.1 hy) with hy' | hy'
    · exact absurd hy' hne
    · exact hts y hy'
  have hcons := eq_cons_of_sorted_max _ v₀ (getVersions_sorted d₁) hmem hmax
  refine ⟨(getVersions d₁).tail, hcons, ?_⟩
  rw [hcons] at hperm
  exact hperm.cons_inv

/-- The fresh version file (the newest entry) survives the retention
cleanup: the cleaned directory is some sub-collection of the old files
followed by the fresh file. -/
theorem cleanup_append_new (dir : HistoryDir) (now : Nat) (h content : String)
    (hh : ValidHash h) (hts : ∀ v ∈ getVersions dir, v.timestamp < now)
    (hnd : (dir.map (·.name)).Nodup) :
    ∃ d', cleanupOldVersions (dir ++
        [(⟨toString now ++ "-" ++ h ++ ".md", content⟩ : HistFile)]) =
        d' ++ [(⟨toString now ++ "-" ++ h ++ ".md", content⟩ : HistFile)] ∧
      ∀ e ∈ d', e ∈ dir := by
  set nf : HistFile := ⟨toString now ++ "-" ++ h ++ ".md", content⟩ with hnf
  by_cases hle : (getVersions (dir ++ [nf])).length ≤ MAX_VERSIONS
  · exact ⟨dir, by rw [cleanup_of_le _ hle], fun e he => he⟩
  · rw [cleanup_of_gt _ hle]
    obtain ⟨t, ht, hpt⟩ := getVersions_append_new dir now h content hh hts
    have hndp := getVersions_filePaths_nodup (dir ++ [nf])
      (append_new_names_nodup dir now h content hh hts hnd)
    rw [ht, List.map_cons, List.nodup_cons] at hndp
    have hnot : nf.name ∉
        (((getVersions (dir ++ [nf])).drop MAX_VERSIONS).map (·.filePath)) := by
      rw [ht, show MAX_VERSIONS = 19 + 1 from rfl, List.drop_succ_cons]
      intro hm
      exact hndp.1 (((List.drop_sublist _ _).map _).subset hm)
    refine ⟨dir.filter (fun e =>
      !((((getVersions (dir ++ [nf])).drop MAX_VERSIONS).map (·.filePath)).contains e.name)),
      ?_, fun e he => List.mem_of_mem_filter he⟩
    rw [List.filter_append]
    rw [List.filter_cons_of_pos (by
      rw [list_contains_eq]
      simp only [Bool.not_eq_true']
      exact decide_eq_false hnot)]
    rfl

/-- The content just saved is retrievable through `getVersionContent` at the
returned version's id. -/
theorem saveVersion_content (dir : HistoryDir) (now : Nat) (hashFn : String → String)
    (content : String) (hnd : (dir.map (·.name)).Nodup)
    (hts : ∀ v ∈ getVersions dir, v.timestamp < now)
    (hh : ValidHash (hashFn content)) :
    getVersionContent (saveVersion dir now hashFn content).1
      (saveVersion dir now hashFn content).2.id = some content := by
  rw [saveVersion_hist dir now hashFn content hh hts]
  set nf : HistFile := ⟨toString now ++ "-" ++ hashFn content ++ ".md", content⟩ with hnf
  obtain ⟨d', hd', hsub⟩ := cleanup_append_new dir now (hashFn content) content hh hts hnd
  rw [hd']
  show getVersionContent (d' ++ [nf]) (toString now ++ "-" ++ hashFn content) = some content
  have hts' : ∀ v ∈ getVersions d', v.timestamp < now := by
    intro v hv
    have hv' : v ∈ d'.filterMap versionOfFile := (getVersions_perm d').mem_iff.1 hv
    obtain ⟨e, he, hve⟩ := List.mem_filterMap.1 hv'
    have hvd : v ∈ dir.filterMap versionOfFile := List.mem_filterMap.2 ⟨e, hsub e he, hve⟩
    exact hts v ((getVersions_perm dir).mem_iff.2 hvd)
  obtain ⟨t', ht', -⟩ := getVersions_append_new d' now (hashFn content) content hh hts'
  have hfind : (getVersions (d' ++ [nf])).find?
      (fun v => v.id = toString now ++ "-" ++ hashFn content) =
      some ⟨toString now ++ "-" ++ hashFn content, now, hashFn content,
        getPreview content, toString now ++ "-" ++ hashFn content ++ ".md"⟩ := by
    rw [ht']
    exact List.find?_cons_of_pos _ (decide_eq_true rfl)
  have hnone : d'.find?
      (fun e => e.name = toString now ++ "-" ++ hashFn content ++ ".md") = none :=
    List.find?_eq_none.2 (fun e he hpe =>
      newname_fresh dir now (hashFn content) hh hts e (hsub e he) (of_decide_eq_true hpe))
  have hone : List.find?
      (fun e => e.name = toString now ++ "-" ++ hashFn content ++ ".md") [nf] = some nf :=
    List.find?_cons_of_pos _ (decide_eq_true rfl)
  unfold getVersionContent
  rw [hfind]
  show ((d' ++ [nf]).find?
    (fun e => e.name = toString now ++ "-" ++ hashFn content ++ ".md")).map
    (·.content) = some content
  rw [List.find?_append, hnone, hone]
  rfl

/-! ## Claim C3: save / rollback round trip -/

/-- C3 counterexample: saving the empty document and immediately rolling
back to its id does not restore it.  `rollbackToVersion` tests
`if (!content) return false` and the empty string is falsy in JavaScript,
so the stored — and perfectly retrievable — empty document is rejected:
the call returns `false` and the live README is left untouched.  The
claimed round trip therefore fails for `X = ""`. -/
theorem saveVersion_rollback_counterexample :
    (rollbackToVersion
        (saveVersionWS ⟨some "old", []⟩ 100 (fun _ => "ab") "").1
        (saveVersionWS ⟨some "old", []⟩ 100 (fun _ => "ab") "").2.id).2 = false ∧
    (rollbackToVersion
        (saveVersionWS ⟨some "old", []⟩ 100 (fun _ => "ab") "").1
        (saveVersionWS ⟨some "old", []⟩ 100 (fun _ => "ab") "").2.id).1.readme ≠
      some "" := by
  decide

/-- C3 (amended): for every *non-empty* document content, `saveVersion`
immediately followed by `rollbackToVersion` at the returned version's id
succeeds and overwrites the live README with exactly that content —
provided the directory's file names are distinct, every already-stored
version is older than the save's timestamp, and the hash is a well-formed
md5 hex string. -/
theorem saveVersion_rollback (ws : Workspace) (now : Nat) (hashFn : String → String)
    (content : String)
    (hnd : (ws.hist.map (·.name)).Nodup)
    (hts : ∀ v ∈ getVersions ws.hist, v.timestamp < now)
    (hh : ValidHash (hashFn content))
    (hc : content ≠ "") :
    rollbackToVersion (saveVersionWS ws now hashFn content).1
        (saveVersionWS ws now hashFn content).2.id =
      ({ (saveVersionWS ws now hashFn content).1 with readme := some content }, true) := by
  have hcontent := saveVersion_content ws.hist now hashFn content hnd hts hh
  unfold rollbackToVersion
  rw [show (saveVersionWS ws now hashFn content).1.hist =
      (saveVersion ws.hist now hashFn content).1 from rfl,
    show (saveVersionWS ws now hashFn content).2.id =
      (saveVersion ws.hist now hashFn content).2.id from rfl,
    hcontent]
  dsimp only
  rw [if_neg hc]
  rfl

/-! ## Claim C2: the 20-version retention policy -/

/-- C2: after every `saveVersion` the store holds at most `MAX_VERSIONS`
(= 20) parsed versions; and when the store already holds exactly 20
versions, saving a 21st leaves exactly 20 — the newly saved version
followed by the 19 most recent previous ones in newest-first order — and
every version beyond them (in particular the oldest by timestamp, which
comes last in the newest-first listing) is deleted.  Hypotheses: the
directory's file names are distinct, every stored version predates the
save's timestamp, the hash is a well-formed md5 hex string, and the stored
timestamps are pairwise distinct. -/
theorem saveVersion_retention (dir : HistoryDir) (now : Nat)
    (hashFn : String → String) (content : String)
    (hnd : (dir.map (·.name)).Nodup)
    (hts : ∀ v ∈ getVersions dir, v.timestamp < now)
    (hh : ValidHash (hashFn content))
    (hdist : ((getVersions dir).map (·.timestamp)).Nodup) :
    (getVersions (saveVersion dir now hashFn content).1).length ≤ MAX_VERSIONS ∧
    ((getVersions dir).length = MAX_VERSIONS →
      getVersions (saveVersion dir now hashFn content).1 =
        (saveVersion dir now hashFn content).2 ::
          (getVersions dir).take (MAX_VERSIONS - 1) ∧
      (getVersions (saveVersion dir now hashFn content).1).length = MAX_VERSIONS ∧
      ∀ old ∈ (getVersions dir).drop (MAX_VERSIONS - 1),
        old ∉ getVersions (saveVersion dir now hashFn content).1) := by
  rw [saveVersion_hist dir now hashFn content hh hts]
  have hnd₁ := append_new_names_nodup dir now (hashFn content) content hh hts hnd
  obtain ⟨t, ht, hpt⟩ := getVersions_append_new dir now (hashFn content) content hh hts
  have htail : t = getVersions dir := by
    have hs₁ := getVersions_sorted
      (dir ++ [(⟨toString now ++ "-" ++ hashFn content ++ ".md", content⟩ : HistFile)])
    rw [ht] at hs₁
    exact sorted_perm_eq t (getVersions dir) hs₁.of_cons (getVersions_sorted dir) hpt
      ((hpt.map (·.timestamp)).nodup_iff.2 hdist)
  subst htail
  have hsnd : (saveVersion dir now hashFn content).2 =
      ⟨toString now ++ "-" ++ hashFn content, now, hashFn content, getPreview content,
        toString now ++ "-" ++ hashFn content ++ ".md"⟩ := rfl
  rw [← hsnd] at ht
  have hclean := getVersions_cleanup
    (dir ++ [(⟨toString now ++ "-" ++ hashFn content ++ ".md", content⟩ : HistFile)]) hnd₁
  rw [ht] at hclean
  refine ⟨?_, ?_⟩
  · have h1 := hclean.length_eq
    rw [List.length_take, List.length_cons] at h1
    omega
  · intro hlen
    have htk : ((saveVersion dir now hashFn content).2 :: getVersions dir).take MAX_VERSIONS =
        (saveVersion dir now hashFn content).2 :: (getVersions dir).take (MAX_VERSIONS - 1) := by
      rw [show MAX_VERSIONS = 19 + 1 from rfl, List.take_succ_cons]
    rw [htk] at hclean
    have hs₂ : ((saveVersion dir now hashFn content).2 ::
        (getVersions dir).take (MAX_VERSIONS - 1)).Sorted tsGE := by
      have hs₁ := getVersions_sorted
        (dir ++ [(⟨toString now ++ "-" ++ hashFn content ++ ".md", content⟩ : HistFile)])
      rw [ht] at hs₁
      exact hs₁.sublist ((List.take_sublist _ _).cons₂ _)
    have hnd₂ : (((saveVersion dir now hashFn content).2 ::
        (getVersions dir).take (MAX_VERSIONS - 1)).map (·.timestamp)).Nodup := by
      rw [List.map_cons, List.nodup_cons]
      refine ⟨?_, hdist.sublist ((List.take_sublist _ _).map _)⟩
      intro hmem
      obtain ⟨y, hy, hyts⟩ := List.mem_map.1 hmem
      have hyd : y ∈ getVersions dir := (List.take_sublist _ _).subset hy
      have h1 := hts y hyd
      have h2 : (saveVersion dir now hashFn content).2.timestamp = now := rfl
      omega
    have hnd₁' := (hclean.map (·.timestamp)).nodup_iff.2 hnd₂
    have heq := sorted_perm_eq _ _ (getVersions_sorted _) hs₂ hclean hnd₁'
    refine ⟨heq, ?_, ?_⟩
    · rw [heq, List.length_cons, List.length_take, hlen]
      decide
    · intro old hold hmem
      rw [heq] at hmem
      rcases List.mem_cons.1 hmem with h | h
      · have hod : old ∈ getVersions dir := List.drop_subset _ _ hold
        have h1 := hts old hod
        have h2 : old.timestamp = now := by rw [h]; exact rfl
        omega
      · have hndl : (getVersions dir).Nodup := List.Nodup.of_map _ hdist
        have hsp : ((getVersions dir).take (MAX_VERSIONS - 1) ++
            (getVersions dir).drop (MAX_VERSIONS - 1)).Nodup := by
          rw [List.take_append_drop]
          exact hndl
        rw [List.nodup_append] at hsp
        exact hsp.2.2 h hold

/-- C2 witness: a store holding versions with timestamps 1..20 receives a
21st version with timestamp 100. -/
theorem saveVersion_retention_witness :
    ((((List.range 20).map
        (fun i => (⟨toString (i + 1) ++ "-ab.md", "x"⟩ : HistFile))).map (·.name)).Nodup ∧
      (∀ v ∈ getVersions ((List.range 20).map
        (fun i => (⟨toString (i + 1) ++ "-ab.md", "x"⟩ : HistFile))), v.timestamp < 100) ∧
      ValidHash ((fun _ => "ab") "y") ∧
      ((getVersions ((List.range 20).map
        (fun i => (⟨toString (i + 1) ++ "-ab.md", "x"⟩ : HistFile)))).map
          (·.timestamp)).Nodup) ∧
    ((getVersions (saveVersion ((List.range 20).map
        (fun i => (⟨toString (i + 1) ++ "-ab.md", "x"⟩ : HistFile)))
        100 (fun _ => "ab") "y").1).length ≤ MAX_VERSIONS ∧
      ((getVersions ((List.range 20).map
          (fun i => (⟨toString (i + 1) ++ "-ab.md", "x"⟩ : HistFile)))).length = MAX_VERSIONS →
        getVersions (saveVersion ((List.range 20).map
            (fun i => (⟨toString (i + 1) ++ "-ab.md", "x"⟩ : HistFile)))
            100 (fun _ => "ab") "y").1 =
          (saveVersion ((List.range 20).map
            (fun i => (⟨toString (i + 1) ++ "-ab.md", "x"⟩ : HistFile)))
            100 (fun _ => "ab") "y").2 ::
            (getVersions ((List.range 20).map
              (fun i => (⟨toString (i + 1) ++ "-ab.md", "x"⟩ : HistFile)))).take
              (MAX_VERSIONS - 1) ∧
        (getVersions (saveVersion ((List.range 20).map
            (fun i => (⟨toString (i + 1) ++ "-ab.md", "x"⟩ : HistFile)))
            100 (fun _ => "ab") "y").1).length = MAX_VERSIONS ∧
        ∀ old ∈ (getVersions ((List.range 20).map
            (fun i => (⟨toString (i + 1) ++ "-ab.md", "x"⟩ : HistFile)))).drop
            (MAX_VERSIONS - 1),
          old ∉ getVersions (saveVersion ((List.range 20).map
            (fun i => (⟨toString (i + 1) ++ "-ab.md", "x"⟩ : HistFile)))
            100 (fun _ => "ab") "y").1)) :=
  ⟨⟨by decide, by decide, by decide, by decide⟩,
    saveVersion_retention ((List.range 20).map
        (fun i => (⟨toString (i + 1) ++ "-ab.md", "x"⟩ : HistFile)))
      100 (fun _ => "ab") "y" (by decide) (by decide) (by decide) (by decide)⟩

/-- C3 witness: a concrete save / rollback round trip on an empty store. -/
theorem saveVersion_rollback_witness :
    (((⟨none, []⟩ : Workspace).hist.map (·.name)).Nodup ∧
      (∀ v ∈ getVersions (⟨none, []⟩ : Workspace).hist, v.timestamp < 5) ∧
      ValidHash ((fun _ => "ab") "hello") ∧ "hello" ≠ "") ∧
    rollbackToVersion (saveVersionWS ⟨none, []⟩ 5 (fun _ => "ab") "hello").1
        (saveVersionWS ⟨none, []⟩ 5 (fun _ => "ab") "hello").2.id =
      ({ (saveVersionWS ⟨none, []⟩ 5 (fun _ => "ab") "hello").1 with
          readme := some "hello" }, true) :=
  ⟨⟨by decide, by decide, by decide, by decide⟩,
    saveVersion_rollback ⟨none, []⟩ 5 (fun _ => "ab") "hello"
      (by decide) (by decide) (by decide) (by decide)⟩

end HistoryManager

/-! ## Claim C1: supporting lemmas for the language statistics -/

namespace LanguageDetector

theorem sum_le_of_sublist {l₁ l₂ : List Nat} (h : List.Sublist l₁ l₂) :
    l₁.sum ≤ l₂.sum := by
  induction h with
  | slnil => exact Nat.le_refl _
  | cons a h ih =>
    rw [List.sum_cons]
    exact Nat.le_trans ih (Nat.le_add_left _ _)
  | cons₂ a h ih =>
    rw [List.sum_cons, List.sum_cons]
    exact Nat.add_le_add_left ih a

theorem div_add_div_le (a b d : Nat) : a / d + b / d ≤ (a + b) / d := by
  rcases Nat.eq_zero_or_pos d with hd | hd
  · subst hd
    simp
  · rw [Nat.le_div_iff_mul_le hd, Nat.add_mul]
    exact Nat.add_le_add (Nat.div_mul_le_self _ _) (Nat.div_mul_le_self _ _)

theorem sum_jsRound100_le (t : Nat) (cs : List Nat) :
    (cs.map (fun c => jsRound100 c t)).sum ≤
      (200 * cs.sum + cs.length * t) / (2 * t) := by
  induction cs with
  | nil => simp
  | cons c cs ih =>
    rw [List.map_cons, List.sum_cons, List.sum_cons, List.length_cons]
    refine Nat.le_trans (Nat.add_le_add_left ih _) ?_
    refine Nat.le_trans (div_add_div_le (200 * c + t) _ (2 * t)) ?_
    refine Nat.le_of_eq (congrArg (· / (2 * t)) ?_)
    ring

/-- The rounded percentages of a same-base group of at most four variants
whose file counts total at most `t` sum to at most 102. -/
theorem group_pct_le_102 (t : Nat) (ht : t ≠ 0) (cs : List Nat)
    (hsum : cs.sum ≤ t) (hlen : cs.length ≤ 4) :
    (cs.map (fun c => jsRound100 c t)).sum ≤ 102 := by
  refine Nat.le_trans (sum_jsRound100_le t cs) ?_
  have h2 : cs.length * t ≤ 4 * t := Nat.mul_le_mul_right t hlen
  have h1 : 200 * cs.sum + cs.length * t ≤ 102 * (2 * t) := by omega
  calc (200 * cs.sum + cs.length * t) / (2 * t)
      ≤ 102 * (2 * t) / (2 * t) := Nat.div_le_div_right h1
    _ = 102 := Nat.mul_div_cancel 102 (by omega)

/-- The keys of `bump h k`: unchanged when `k` is present, `k` appended
otherwise. -/
theorem bump_keys (h : List (String × Nat)) (k : String) :
    (bump h k).map Prod.fst =
      if k ∈ h.map Prod.fst then h.map Prod.fst else h.map Prod.fst ++ [k] := by
  induction h with
  | nil => simp [bump]
  | cons p rest ih =>
    by_cases hk : p.1 = k
    · rw [show bump (p :: rest) k = (p.1, p.2 + 1) :: rest from by
        rw [show (p : String × Nat) = (p.1, p.2) from rfl, bump, if_pos hk]]
      simp [hk]
    · rw [show bump (p :: rest) k = (p.1, p.2) :: bump rest k from by
        rw [show (p : String × Nat) = (p.1, p.2) from rfl, bump, if_neg hk]]
      rw [List.map_cons, ih, List.map_cons]
      by_cases hm : k ∈ rest.map Prod.fst
      · rw [if_pos hm, if_pos (List.mem_cons_of_mem _ hm)]
      · rw [if_neg hm, if_neg (by
          intro hc
          rcases List.mem_cons.1 hc with hc | hc
          · exact hk hc.symm
          · exact hm hc)]
        rfl

theorem bump_values_sum (h : List (String × Nat)) (k : String) :
    ((bump h k).map Prod.snd).sum = (h.map Prod.snd).sum + 1 := by
  induction h with
  | nil => simp [bump]
  | cons p rest ih =>
    by_cases hk : p.1 = k
    · rw [show bump (p :: rest) k = (p.1, p.2 + 1) :: rest from by
        rw [show (p : String × Nat) = (p.1, p.2) from rfl, bump, if_pos hk]]
      simp
      omega
    · rw [show bump (p :: rest) k = (p.1, p.2) :: bump rest k from by
        rw [show (p : String × Nat) = (p.1, p.2) from rfl, bump, if_neg hk]]
      simp [ih]
      omega

/-- Invariant of the extension-counting fold: histogram keys are distinct
and recognized, and the histogram values total the recognized-file count. -/
theorem histStep_fold_spec :
    ∀ (fs : List ProjectFile) (st : List (String × Nat) × Nat),
      ((st.1.map Prod.fst).Nodup ∧
        (∀ k ∈ st.1.map Prod.fst, (jsLookup LANGUAGE_MAP k).isSome = true) ∧
        (st.1.map Prod.snd).sum = st.2) →
      (((fs.foldl histStep st).1.map Prod.fst).Nodup ∧
        (∀ k ∈ (fs.foldl histStep st).1.map Prod.fst,
          (jsLookup LANGUAGE_MAP k).isSome = true) ∧
        ((fs.foldl histStep st).1.map Prod.snd).sum = (fs.foldl histStep st).2) := by
  intro fs
  induction fs with
  | nil => intro st h; exact h
  | cons f fs ih =>
    intro st h
    obtain ⟨h1, h2, h3⟩ := h
    rw [List.foldl_cons]
    apply ih
    unfold histStep
    split
    · rename_i hc
      refine ⟨?_, ?_, ?_⟩
      · rw [bump_keys]
        split
        · exact h1
        · rw [List.nodup_append]
          rename_i hnm
          exact ⟨h1, by simp, by
            intro a ha hb
            simp only [List.mem_singleton] at hb
            subst hb
            exact hnm ha⟩
      · intro k hk
        rw [bump_keys] at hk
        split at hk
        · exact h2 k hk
        · rcases List.mem_append.1 hk with hk | hk
          · exact h2 k hk
          · simp only [List.mem_singleton] at hk
            subst hk
            exact hc.2
      · rw [bump_values_sum]
        omega
    · exact ⟨h1, h2, h3⟩

theorem extensionCounts_spec (info : ProjectInfo) :
    (((extensionCounts info).1.map Prod.fst).Nodup ∧
      (∀ k ∈ (extensionCounts info).1.map Prod.fst,
        (jsLookup LANGUAGE_MAP k).isSome = true) ∧
      ((extensionCounts info).1.map Prod.snd).sum = (extensionCounts info).2) :=
  histStep_fold_spec info.files ([], 0) ⟨by simp, by simp, by simp⟩

/-- A recognized extension's language name is one of the `LANGUAGE_MAP`
values. -/
theorem lookup_name_mem (k : String) (h : (jsLookup LANGUAGE_MAP k).isSome = true) :
    (jsLookup LANGUAGE_MAP k).getD "" ∈ LANGUAGE_MAP.map Prod.snd := by
  unfold jsLookup at h ⊢
  cases hf : LANGUAGE_MAP.find? (fun p => p.1 = k) with
  | none => rw [hf] at h; cases h
  | some p =>
    exact List.mem_map_of_mem _ (List.mem_of_find?_eq_some hf)

/-- A recognized extension is one of the `LANGUAGE_MAP` keys. -/
theorem lookup_key_mem (k : String) (h : (jsLookup LANGUAGE_MAP k).isSome = true) :
    k ∈ LANGUAGE_MAP.map Prod.fst := by
  unfold jsLookup at h
  cases hf : LANGUAGE_MAP.find? (fun p => p.1 = k) with
  | none => rw [hf] at h; cases h
  | some p =>
    have hp1 := List.find?_some hf
    have hp : p.1 = k := of_decide_eq_true hp1
    rw [← hp]
    exact List.mem_map_of_mem _ (List.mem_of_find?_eq_some hf)

/-- Every string starts with its own base name. -/
theorem jsStartsWith_baseName (s : String) : jsStartsWith s (baseName s) = true := by
  unfold jsStartsWith baseName
  rw [List.isPrefixOf_iff_prefix]
  exact List.takeWhile_prefix _

/-- Bookkeeping invariant of the merge fold of `detectLanguages`: the seen
set lists the merged entries' base names in order, every merged entry's
name is a recognized language name, each entry aggregates exactly the
already-processed statistics of its base name, every processed base is
represented, and no file count is lost. -/
def MergeInv (NS : List String) (processed : List LanguageStat)
    (st : List LanguageStat × List String) : Prop :=
  st.2 = st.1.map (fun e => baseName e.name) ∧
  st.2.Nodup ∧
  (∀ e ∈ st.1, e.name ∈ NS) ∧
  (∀ e ∈ st.1, e.name ∈ processed.map (·.name)) ∧
  (∀ e ∈ st.1,
    e.fileCount = ((processed.filter
      (fun l => baseName l.name = baseName e.name)).map (·.fileCount)).sum ∧
    e.percentage = ((processed.filter
      (fun l => baseName l.name = baseName e.name)).map (·.percentage)).sum) ∧
  (∀ l ∈ processed, baseName l.name ∈ st.2) ∧
  sumCounts st.1 = sumCounts processed

/-- `updateFirst` rewrites exactly the first matching element. -/
theorem updateFirst_append {α : Type} (p : α → Bool) (f : α → α) :
    ∀ (l₁ : List α) (e₀ : α) (l₂ : List α), (∀ e ∈ l₁, p e = false) → p e₀ = true →
      updateFirst p f (l₁ ++ e₀ :: l₂) = l₁ ++ f e₀ :: l₂ := by
  intro l₁
  induction l₁ with
  | nil =>
    intro e₀ l₂ _ hp
    show (if p e₀ then f e₀ :: l₂ else e₀ :: updateFirst p f l₂) = f e₀ :: l₂
    rw [if_pos hp]
  | cons x xs ih =>
    intro e₀ l₂ hl hp
    show (if p x then f x :: (xs ++ e₀ :: l₂)
        else x :: updateFirst p f (xs ++ e₀ :: l₂)) = x :: (xs ++ f e₀ :: l₂)
    rw [if_neg (by rw [hl x (List.mem_cons_self x xs)]; exact Bool.false_ne_true)]
    rw [ih e₀ l₂ (fun e he => hl e (List.mem_cons_of_mem x he)) hp]

/-- One step of the merge fold preserves the invariant. -/
theorem mergeStep_inv (NS : List String)
    (processed : List LanguageStat) (st : List LanguageStat × List String)
    (lang : LanguageStat) (hlang : lang.name ∈ NS)
    (hR : ∀ x ∈ processed, baseName x.name = baseName lang.name →
      ∀ n ∈ NS, jsStartsWith n (baseName x.name) = true → baseName n = baseName x.name)
    (hinv : MergeInv NS processed st) :
    MergeInv NS (processed ++ [lang]) (mergeStep st lang) := by
  obtain ⟨hmap, hnd, hnames, hnameproc, hsums, hcover, hsum⟩ := hinv
  simp only [mergeStep]
  set b := baseName lang.name with hbdef
  by_cases hb : st.2.contains b = true
  · rw [if_pos hb]
    have hbmem : b ∈ st.2 := by
      rw [HistoryManager.list_contains_eq] at hb
      exact of_decide_eq_true hb
    have hex : ∃ e₀ ∈ st.1, baseName e₀.name = b := by
      rw [hmap] at hbmem
      obtain ⟨e₀, he₀, hbe₀⟩ := List.mem_map.1 hbmem
      exact ⟨e₀, he₀, hbe₀⟩
    obtain ⟨e₀, he₀, hbe₀⟩ := hex
    obtain ⟨l₁, l₂, hdec⟩ := List.append_of_mem he₀
    have hmap' := hmap
    rw [hdec, List.map_append, List.map_cons] at hmap'
    have hnd' := hnd
    rw [hmap', List.nodup_append] at hnd'
    have hl₁ : ∀ e ∈ l₁, baseName e.name ≠ b := by
      intro e he hbe
      refine hnd'.2.2 (List.mem_map_of_mem _ he) ?_
      rw [hbe, ← hbe₀]
      exact List.mem_cons_self _ _
    have hl₂ : ∀ e ∈ l₂, baseName e.name ≠ b := by
      intro e he hbe
      refine (List.nodup_cons.1 hnd'.2.1).1 ?_
      rw [hbe₀, ← hbe]
      exact List.mem_map_of_mem _ he
    obtain ⟨x, hx, hxname⟩ := List.mem_map.1 (hnameproc e₀ he₀)
    have hgood := hR x hx (by rw [hxname]; exact hbe₀)
    rw [hxname, hbe₀] at hgood
    have hpfalse : ∀ e ∈ l₁, (jsStartsWith e.name b) = false := by
      intro e he
      cases hpe : jsStartsWith e.name b with
      | false => rfl
      | true =>
        exact absurd
          (hgood e.name (hnames e (by rw [hdec]; exact List.mem_append_left _ he)) hpe)
          (hl₁ e he)
    have pe₀ : (jsStartsWith e₀.name b) = true := by
      rw [← hbe₀]
      exact jsStartsWith_baseName e₀.name
    rw [hdec, updateFirst_append (fun l => jsStartsWith l.name b)
      (fun l => { l with fileCount := l.fileCount + lang.fileCount, percentage := l.percentage + lang.percentage })
      l₁ e₀ l₂ hpfalse pe₀]
    refine ⟨?_, hnd, ?_, ?_, ?_, ?_, ?_⟩
    · show st.2 = (l₁ ++ { e₀ with fileCount := e₀.fileCount + lang.fileCount, percentage := e₀.percentage + lang.percentage } :: l₂).map (fun e => baseName e.name)
      rw [List.map_append, List.map_cons]
      exact hmap'
    · intro e he
      rcases List.mem_append.1 he with he | he
      · exact hnames e (by rw [hdec]; exact List.mem_append_left _ he)
      · rcases List.mem_cons.1 he with he | he
        · subst he
          exact hnames e₀ he₀
        · exact hnames e (by
            rw [hdec]
            exact List.mem_append_right _ (List.mem_cons_of_mem _ he))
    · intro e he
      rw [List.map_append]
      refine List.mem_append_left _ ?_
      rcases List.mem_append.1 he with he | he
      · exact hnameproc e (by rw [hdec]; exact List.mem_append_left _ he)
      · rcases List.mem_cons.1 he with he | he
        · subst he
          exact hnameproc e₀ he₀
        · exact hnameproc e (by
            rw [hdec]
            exact List.mem_append_right _ (List.mem_cons_of_mem _ he))
    · intro e he
      rcases List.mem_append.1 he with he | he
      · obtain ⟨hc, hpct⟩ := hsums e (by rw [hdec]; exact List.mem_append_left _ he)
        have hfl : List.filter (fun l => baseName l.name = baseName e.name) [lang] = [] := by
          rw [List.filter_cons_of_neg
            (by intro hd; exact hl₁ e he (of_decide_eq_true hd).symm)]
          rfl
        rw [List.filter_append, hfl, List.append_nil]
        exact ⟨hc, hpct⟩
      · rcases List.mem_cons.1 he with he | he
        · subst he
          obtain ⟨hc, hpct⟩ := hsums e₀ he₀
          have hfl : List.filter
              (fun l => baseName l.name = baseName e₀.name) [lang] = [lang] := by
            rw [List.filter_cons_of_pos (by exact decide_eq_true hbe₀.symm)]
            rfl
          constructor
          · show e₀.fileCount + lang.fileCount =
              (((processed ++ [lang]).filter
                (fun l => baseName l.name = baseName e₀.name)).map (·.fileCount)).sum
            rw [List.filter_append, hfl, List.map_append, List.sum_append, ← hc]
            simp
          · show e₀.percentage + lang.percentage =
              (((processed ++ [lang]).filter
                (fun l => baseName l.name = baseName e₀.name)).map (·.percentage)).sum
            rw [List.filter_append, hfl, List.map_append, List.sum_append, ← hpct]
            simp
        · obtain ⟨hc, hpct⟩ := hsums e (by
            rw [hdec]
            exact List.mem_append_right _ (List.mem_cons_of_mem _ he))
          have hfl : List.filter (fun l => baseName l.name = baseName e.name) [lang] = [] := by
            rw [List.filter_cons_of_neg
              (by intro hd; exact hl₂ e he (of_decide_eq_true hd).symm)]
            rfl
          rw [List.filter_append, hfl, List.append_nil]
          exact ⟨hc, hpct⟩
    · intro l hl
      rcases List.mem_append.1 hl with hl | hl
      · exact hcover l hl
      · rcases List.mem_cons.1 hl with hl | hl
        · subst hl
          exact hbmem
        · cases hl
    · show sumCounts (l₁ ++ { e₀ with fileCount := e₀.fileCount + lang.fileCount, percentage := e₀.percentage + lang.percentage } :: l₂) = sumCounts (processed ++ [lang])
      rw [hdec] at hsum
      unfold sumCounts at hsum ⊢
      simp only [List.map_append, List.map_cons, List.map_nil, List.sum_append,
        List.sum_cons, List.sum_nil] at hsum ⊢
      omega
  · rw [if_neg hb]
    have hbm : b ∉ st.2 := by
      intro hm
      exact hb (by rw [HistoryManager.list_contains_eq]; exact decide_eq_true hm)
    refine ⟨?_, ?_, ?_, ?_, ?_, ?_, ?_⟩
    · show st.2 ++ [b] = (st.1 ++ [lang]).map (fun e => baseName e.name)
      rw [List.map_append, ← hmap]
      rfl
    · show (st.2 ++ [b]).Nodup
      rw [List.nodup_append]
      refine ⟨hnd, by simp, ?_⟩
      intro a ha hb'
      simp only [List.mem_singleton] at hb'
      subst hb'
      exact hbm ha
    · intro e he
      rcases List.mem_append.1 he with he | he
      · exact hnames e he
      · simp only [List.mem_singleton] at he
        subst he
        exact hlang
    · intro e he
      rw [List.map_append]
      rcases List.mem_append.1 he with he | he
      · exact List.mem_append_left _ (hnameproc e he)
      · simp only [List.mem_singleton] at he
        rw [he]
        exact List.mem_append_right _ (by simp)
    · intro e he
      rcases List.mem_append.1 he with he | he
      · have hbe : baseName e.name ∈ st.2 := by
          rw [hmap]
          exact List.mem_map_of_mem _ he
        have hne : baseName lang.name ≠ baseName e.name := by
          intro h
          rw [← h] at hbe
          exact hbm hbe
        obtain ⟨hc, hpct⟩ := hsums e he
        have hfl : List.filter (fun l => baseName l.name = baseName e.name) [lang] = [] := by
          rw [List.filter_cons_of_neg (by intro hd; exact hne (of_decide_eq_true hd))]
          rfl
        rw [List.filter_append, hfl, List.append_nil]
        exact ⟨hc, hpct⟩
      · simp only [List.mem_singleton] at he
        rw [he]
        have hproc : List.filter
            (fun l => baseName l.name = baseName lang.name) processed = [] := by
          rw [List.filter_eq_nil_iff]
          intro l hl
          simp only [decide_eq_true_eq]
          intro h
          refine hbm ?_
          rw [hbdef, ← h]
          exact hcover l hl
        have hfl : List.filter
            (fun l => baseName l.name = baseName lang.name) [lang] = [lang] := by
          rw [List.filter_cons_of_pos (by exact decide_eq_true rfl)]
          rfl
        rw [List.filter_append, hproc, List.nil_append, hfl]
        exact ⟨by simp, by simp⟩
    · intro l hl
      rcases List.mem_append.1 hl with hl | hl
      · exact List.mem_append_left _ (hcover l hl)
      · simp only [List.mem_singleton] at hl
        subst hl
        exact List.mem_append_right _ (List.mem_singleton_self _)
    · show sumCounts (st.1 ++ [lang]) = sumCounts (processed ++ [lang])
      unfold sumCounts at hsum ⊢
      rw [List.map_append, List.map_append, List.sum_append, List.sum_append, hsum]

/-- The merge fold maintains the invariant along any recognized-name list
whose same-base repetitions are prefix-unambiguous. -/
theorem mergeStep_fold_inv (NS : List String) :
    ∀ (rest processed : List LanguageStat) (st : List LanguageStat × List String),
      (∀ l ∈ rest, l.name ∈ NS) →
      ((processed ++ rest).Pairwise (fun x y =>
        baseName x.name = baseName y.name →
          ∀ n ∈ NS, jsStartsWith n (baseName x.name) = true →
            baseName n = baseName x.name)) →
      MergeInv NS processed st →
      MergeInv NS (processed ++ rest) (rest.foldl mergeStep st) := by
  intro rest
  induction rest with
  | nil =>
    intro processed st _ _ hinv
    rw [List.append_nil]
    exact hinv
  | cons lang rest ih =>
    intro processed st hns hP hinv
    rw [List.foldl_cons]
    have hR : ∀ x ∈ processed, baseName x.name = baseName lang.name →
        ∀ n ∈ NS, jsStartsWith n (baseName x.name) = true →
          baseName n = baseName x.name := by
      intro x hx
      exact (List.pairwise_append.1 hP).2.2 x hx lang (List.mem_cons_self _ _)
    have h1 : MergeInv NS (processed ++ [lang]) (mergeStep st lang) :=
      mergeStep_inv NS processed st lang (hns lang (List.mem_cons_self _ _)) hR hinv
    have hP' : ((processed ++ [lang]) ++ rest).Pairwise (fun x y =>
        baseName x.name = baseName y.name →
          ∀ n ∈ NS, jsStartsWith n (baseName x.name) = true →
            baseName n = baseName x.name) := by
      rw [List.append_assoc, List.singleton_append]
      exact hP
    have h2 := ih (processed ++ [lang]) (mergeStep st lang)
      (fun l hl => hns l (List.mem_cons_of_mem _ hl)) hP' h1
    rw [List.append_assoc, List.singleton_append] at h2
    exact h2

/-- The invariant instantiated at the full merge. -/
theorem mergeLanguages_inv (NS : List String)
    (langs : List LanguageStat) (hns : ∀ l ∈ langs, l.name ∈ NS)
    (hP : langs.Pairwise (fun x y =>
      baseName x.name = baseName y.name →
        ∀ n ∈ NS, jsStartsWith n (baseName x.name) = true →
          baseName n = baseName x.name)) :
    MergeInv NS langs (langs.foldl mergeStep ([], [])) := by
  have h0 : MergeInv NS [] (([], []) : List LanguageStat × List String) := by
    refine ⟨rfl, List.nodup_nil, ?_, ?_, ?_, ?_, rfl⟩
    · intro e he
      cases he
    · intro e he
      cases he
    · intro e he
      cases he
    · intro l hl
      cases hl
  have h := mergeStep_fold_inv NS langs [] ([], []) hns (by rw [List.nil_append]; exact hP) h0
  rw [List.nil_append] at h
  exact h

/-- Prefix safety of the concrete name set: whenever two *distinct*
extensions map to names with the same base, every map value starting with
that base also has that base (checked over all of `LANGUAGE_MAP`). -/
theorem langs_pairwise_safe :
    ∀ k₁ ∈ LANGUAGE_MAP.map Prod.fst, ∀ k₂ ∈ LANGUAGE_MAP.map Prod.fst,
      k₁ ≠ k₂ →
      baseName ((jsLookup LANGUAGE_MAP k₁).getD "") =
        baseName ((jsLookup LANGUAGE_MAP k₂).getD "") →
      ∀ n ∈ LANGUAGE_MAP.map Prod.snd,
        jsStartsWith n (baseName ((jsLookup LANGUAGE_MAP k₁).getD "")) = true →
        baseName n = baseName ((jsLookup LANGUAGE_MAP k₁).getD "") := by
  decide

/-- Per-base multiplicity of the concrete map: at most four extensions
share one language base name (the JavaScript family). -/
theorem langmap_group_le_4 :
    ∀ n ∈ LANGUAGE_MAP.map Prod.snd,
      ((LANGUAGE_MAP.map Prod.fst).filter
        (fun k => baseName ((jsLookup LANGUAGE_MAP k).getD "") = baseName n)).length ≤ 4 := by
  decide

theorem subperm_filter (p : String → Bool) {l₁ l₂ : List String}
    (h : List.Subperm l₁ l₂) : List.Subperm (l₁.filter p) (l₂.filter p) := by
  obtain ⟨u, hu, hsub⟩ := h
  exact ⟨u.filter p, hu.filter p, hsub.filter p⟩

/-- C1 (amended): for every project, the merged statistics of
`detectLanguages` lose file counts only through the final top-5
truncation — the `fileCount` sum is at most the recognized-file total `N`,
with equality whenever at most five merged language groups exist — and a
returned percentage can reach at most 102 (same-base variants' rounded
percentages are summed; a base has at most four variants, each rounding up
by at most one half). -/
theorem detectLanguages_bounds (info : ProjectInfo) :
    sumCounts (detectLanguages info) ≤ recognizedTotal info ∧
    ((mergeLanguages (sortLangs (rawLanguages (extensionCounts info).1
        (extensionCounts info).2))).length ≤ 5 →
      sumCounts (detectLanguages info) = recognizedTotal info) ∧
    (∀ s ∈ detectLanguages info, s.percentage ≤ 102) := by
  obtain ⟨hknd, hkdom, hvsum⟩ := extensionCounts_spec info
  have hdl : detectLanguages info =
      if (extensionCounts info).2 = 0 then []
      else (mergeLanguages (sortLangs (rawLanguages (extensionCounts info).1
        (extensionCounts info).2))).take 5 := rfl
  have hrt : recognizedTotal info = (extensionCounts info).2 := rfl
  by_cases ht0 : (extensionCounts info).2 = 0
  · rw [hdl, if_pos ht0, hrt, ht0]
    refine ⟨Nat.le_refl _, fun _ => rfl, ?_⟩
    intro s hs
    cases hs
  · rw [hdl, if_neg ht0, hrt]
    set hist := (extensionCounts info).1 with hhist
    set t := (extensionCounts info).2 with htdef
    have hperm : List.Perm (sortLangs (rawLanguages hist t)) (rawLanguages hist t) :=
      List.perm_insertionSort _ _
    have hns : ∀ l ∈ sortLangs (rawLanguages hist t),
        l.name ∈ LANGUAGE_MAP.map Prod.snd := by
      intro l hl
      obtain ⟨p, hp, hmk⟩ := List.mem_map.1 (hperm.mem_iff.1 hl)
      rw [← hmk]
      exact lookup_name_mem p.1 (hkdom p.1 (List.mem_map_of_mem _ hp))
    have hkp : hist.Pairwise (fun p q => p.1 ≠ q.1) := by
      have hknd' : (hist.map Prod.fst).Pairwise (· ≠ ·) := hknd
      rw [List.pairwise_map] at hknd'
      exact hknd'
    have hPraw : (rawLanguages hist t).Pairwise (fun x y =>
        baseName x.name = baseName y.name →
          ∀ n ∈ LANGUAGE_MAP.map Prod.snd, jsStartsWith n (baseName x.name) = true →
            baseName n = baseName x.name) := by
      unfold rawLanguages
      rw [List.pairwise_map]
      refine hkp.imp_of_mem ?_
      intro p q hp hq hne hbase n hn hsw
      exact langs_pairwise_safe p.1 (lookup_key_mem p.1 (hkdom p.1 (List.mem_map_of_mem _ hp)))
        q.1 (lookup_key_mem q.1 (hkdom q.1 (List.mem_map_of_mem _ hq))) hne hbase n hn hsw
    have hsymm : ∀ {x y : LanguageStat},
        (baseName x.name = baseName y.name →
          ∀ n ∈ LANGUAGE_MAP.map Prod.snd, jsStartsWith n (baseName x.name) = true →
            baseName n = baseName x.name) →
        (baseName y.name = baseName x.name →
          ∀ n ∈ LANGUAGE_MAP.map Prod.snd, jsStartsWith n (baseName y.name) = true →
            baseName n = baseName y.name) := by
      intro x y hxy hbase
      have h1 := hxy hbase.symm
      rw [hbase]
      exact h1
    have hPlangs := (hperm.pairwise_iff hsymm).2 hPraw
    obtain ⟨hmap, hnd, hnames, hnameproc, hsums, hcover, hsum⟩ :=
      mergeLanguages_inv (LANGUAGE_MAP.map Prod.snd)
        (sortLangs (rawLanguages hist t)) hns hPlangs
    have hM : mergeLanguages (sortLangs (rawLanguages hist t)) =
        ((sortLangs (rawLanguages hist t)).foldl mergeStep ([], [])).1 := rfl
    have hsumraw : sumCounts (rawLanguages hist t) = t := by
      unfold sumCounts rawLanguages
      rw [List.map_map]
      rw [show hist.map ((fun x => x.fileCount) ∘ fun p =>
          (⟨(jsLookup LANGUAGE_MAP p.1).getD "", jsRound100 p.2 t, p.2⟩ : LanguageStat)) =
        hist.map Prod.snd from List.map_congr_left (fun p _ => rfl)]
      exact hvsum
    have hsumlangs : sumCounts (sortLangs (rawLanguages hist t)) = t := by
      unfold sumCounts
      rw [(hperm.map (·.fileCount)).sum_eq]
      exact hsumraw
    have hsumM : sumCounts (mergeLanguages (sortLangs (rawLanguages hist t))) = t := by
      rw [hM, hsum]
      exact hsumlangs
    refine ⟨?_, ?_, ?_⟩
    · calc sumCounts ((mergeLanguages (sortLangs (rawLanguages hist t))).take 5)
          ≤ sumCounts (mergeLanguages (sortLangs (rawLanguages hist t))) :=
            sum_le_of_sublist ((List.take_sublist _ _).map _)
        _ = t := hsumM
    · intro hlen
      rw [List.take_of_length_le hlen]
      exact hsumM
    · intro s hs
      have hsM : s ∈ mergeLanguages (sortLangs (rawLanguages hist t)) :=
        (List.take_sublist _ _).subset hs
      rw [hM] at hsM
      obtain ⟨-, hpct⟩ := hsums s hsM
      have hpcteq : ((List.filter (fun l => baseName l.name = baseName s.name)
          (sortLangs (rawLanguages hist t))).map (·.percentage)).sum =
          ((List.filter (fun l => baseName l.name = baseName s.name)
            (rawLanguages hist t)).map (·.percentage)).sum :=
        ((hperm.filter _).map _).sum_eq
      have hfm : ((List.filter (fun l => baseName l.name = baseName s.name)
          (rawLanguages hist t)).map (·.percentage)) =
          (((hist.filter (fun p => baseName ((jsLookup LANGUAGE_MAP p.1).getD "") =
            baseName s.name)).map Prod.snd).map (fun c => jsRound100 c t)) := by
        unfold rawLanguages
        rw [List.filter_map, List.map_map, List.map_map]
        rw [List.filter_congr (fun p _ => rfl :
          ∀ p ∈ hist, ((fun l => decide (baseName l.name = baseName s.name)) ∘ fun p =>
            (⟨(jsLookup LANGUAGE_MAP p.1).getD "", jsRound100 p.2 t, p.2⟩ : LanguageStat)) p =
            (fun p => decide (baseName ((jsLookup LANGUAGE_MAP p.1).getD "") =
              baseName s.name)) p)]
        exact List.map_congr_left (fun p _ => rfl)
      have hcs_sum : ((hist.filter (fun p => baseName ((jsLookup LANGUAGE_MAP p.1).getD "") =
          baseName s.name)).map Prod.snd).sum ≤ t := by
        refine Nat.le_trans (sum_le_of_sublist ((List.filter_sublist _).map _)) ?_
        rw [hvsum]
      have hcs_len : ((hist.filter (fun p => baseName ((jsLookup LANGUAGE_MAP p.1).getD "") =
          baseName s.name)).map Prod.snd).length ≤ 4 := by
        rw [List.length_map]
        have hkeys : ((hist.map Prod.fst).filter
            (fun k => baseName ((jsLookup LANGUAGE_MAP k).getD "") = baseName s.name)).length =
            (hist.filter (fun p => baseName ((jsLookup LANGUAGE_MAP p.1).getD "") =
              baseName s.name)).length := by
          rw [List.filter_map, List.length_map]
          exact congrArg List.length (List.filter_congr (fun p _ => rfl))
        rw [← hkeys]
        refine Nat.le_trans (List.Subperm.length_le (subperm_filter _
          (List.Nodup.subperm hknd (fun k hk => lookup_key_mem k (hkdom k hk))))) ?_
        exact langmap_group_le_4 s.name (hnames s hsM)
      rw [hpct, hpcteq, hfm]
      exact group_pct_le_102 t ht0 _ hcs_sum hcs_len

/-- C1 counterexample: (a) a project of eight files — one `.js`, one
`.jsx`, six `.cjs` — produces a merged JavaScript entry whose percentage
is 13 + 13 + 75 = 101 > 100 (`Math.round` rounds each variant up
separately, and the merge *adds* the rounded percentages); (b) a project
of six files in six different base languages merges to six groups and the
top-5 truncation drops one, so the returned `fileCount`s sum to 5 ≠ 6 = N. -/
theorem detectLanguages_counterexample :
    (∃ s ∈ detectLanguages { name := "a", rootPath := "/a", files := [
        ⟨"/a/a.js", "a.js", "a.js", ".js", false⟩,
        ⟨"/a/b.jsx", "b.jsx", "b.jsx", ".jsx", false⟩,
        ⟨"/a/c1.cjs", "c1.cjs", "c1.cjs", ".cjs", false⟩,
        ⟨"/a/c2.cjs", "c2.cjs", "c2.cjs", ".cjs", false⟩,
        ⟨"/a/c3.cjs", "c3.cjs", "c3.cjs", ".cjs", false⟩,
        ⟨"/a/c4.cjs", "c4.cjs", "c4.cjs", ".cjs", false⟩,
        ⟨"/a/c5.cjs", "c5.cjs", "c5.cjs", ".cjs", false⟩,
        ⟨"/a/c6.cjs", "c6.cjs", "c6.cjs", ".cjs", false⟩] },
      100 < s.percentage) ∧
    sumCounts (detectLanguages { name := "b", rootPath := "/b", files := [
        ⟨"/b/a.js", "a.js", "a.js", ".js", false⟩,
        ⟨"/b/b.py", "b.py", "b.py", ".py", false⟩,
        ⟨"/b/c.go", "c.go", "c.go", ".go", false⟩,
        ⟨"/b/d.rs", "d.rs", "d.rs", ".rs", false⟩,
        ⟨"/b/e.rb", "e.rb", "e.rb", ".rb", false⟩,
        ⟨"/b/f.php", "f.php", "f.php", ".php", false⟩] }) ≠
      recognizedTotal { name := "b", rootPath := "/b", files := [
        ⟨"/b/a.js", "a.js", "a.js", ".js", false⟩,
        ⟨"/b/b.py", "b.py", "b.py", ".py", false⟩,
        ⟨"/b/c.go", "c.go", "c.go", ".go", false⟩,
        ⟨"/b/d.rs", "d.rs", "d.rs", ".rs", false⟩,
        ⟨"/b/e.rb", "e.rb", "e.rb", ".rb", false⟩,
        ⟨"/b/f.php", "f.php", "f.php", ".php", false⟩] } := by
  decide

end LanguageDetector

end ReadmeGen
